import Mathlib

/-!
Verification development for the `monitor` package of the repository
(`src/test1-project/src/monitor/`): a shallow embedding in Lean 4 of
`app_monitor.py`, `models.py` and `service_checker.py`, together with proofs
about the embedded definitions.

Modelling conventions:
* Python dicts holding service statuses are modelled as association lists
  `List (String × String)` in insertion order, with dict-style insertion
  (replace the existing key, otherwise append) and first-match lookup.
* Python exceptions are modelled with `Except String` (the carried string is
  the exception message); a function that cannot raise returns plainly.
* The external process supervisor (`subprocess.run(['systemctl', ...])`), the
  host clock (`datetime.utcnow`) and the filesystem are passed in as explicit
  environment parameters, since their behaviour is outside the repository.
-/

namespace Monitor

/-- Lookup in an association list, first match wins (Python `d[k]` / `k in d`). -/
def alookup (m : List (String × String)) (k : String) : Option String :=
  match m with
  | [] => none
  | (k', v) :: rest => if k' = k then some v else alookup rest k

/-- Dict-style insertion `d[k] = v`: replace the value of an existing key in
place (association lists built this way have unique keys, so replacing the
first occurrence is Python's in-place update), otherwise append the new pair
at the end (Python insertion order). -/
def dictInsert : List (String × String) → String → String → List (String × String)
  | [], k, v => [(k, v)]
  | (k', v') :: rest, k, v =>
    if k' = k then (k, v) :: rest else (k', v') :: dictInsert rest k v

/-- The module-level constant `ApplicationMonitor.REQUIRED_SERVICES`. -/
def REQUIRED_SERVICES : List String := ["httpd", "rabbitmq", "postgresql"]

/-- The `for service in self.REQUIRED_SERVICES` loop body of
`ApplicationMonitor.determine_app_status`: DOWN as soon as a required service
is absent or not "UP", otherwise UP after the loop. -/
def requiredLoop (m : List (String × String)) : List String → String
  | [] => "UP"
  | s :: rest =>
    match alookup m s with
    | none => "DOWN"
    | some v => if v ≠ "UP" then "DOWN" else requiredLoop m rest

/-- `ApplicationMonitor.determine_app_status` (app_monitor.py:62-87). -/
def determine_app_status (m : List (String × String)) : String :=
  if m = [] then "DOWN" else requiredLoop m REQUIRED_SERVICES

/-- The probe result recorded by `ApplicationMonitor.check_service_statuses`
for one service: the probe's value on success, "DOWN" when the probe raised. -/
def probeResult (probe : String → Except String String) (s : String) : String :=
  match probe s with
  | .ok v => v
  | .error _ => "DOWN"

/-- The `for service in services` loop of
`ApplicationMonitor.check_service_statuses`, accumulating the `statuses` dict. -/
def checkLoop (probe : String → Except String String) :
    List String → List (String × String) → List (String × String)
  | [], acc => acc
  | s :: rest, acc => checkLoop probe rest (dictInsert acc s (probeResult probe s))

/-- `ApplicationMonitor.check_service_statuses` (app_monitor.py:34-60).
The `services is None` default is supplied by the caller (`REQUIRED_SERVICES`). -/
def check_service_statuses (probe : String → Except String String)
    (services : List String) : Except String (List (String × String)) :=
  if services = [] then .error "services list cannot be empty"
  else .ok (checkLoop probe services [])

/-- The status map that `check_service_statuses` computes on the default
`REQUIRED_SERVICES` list (the value of `checkLoop` on that constant list). -/
def requiredStatusMap (probe : String → Except String String) : List (String × String) :=
  [("httpd", probeResult probe "httpd"), ("rabbitmq", probeResult probe "rabbitmq"),
   ("postgresql", probeResult probe "postgresql")]

/-! ### Model of CPython `datetime.fromisoformat` (pre-3.11 format)

`ServiceStatus._validate` delegates timestamp validation to the standard
library's `datetime.fromisoformat`, which is not part of the repository.
Modelled from the spec: the pre-3.11 reference implementation in CPython's
`Lib/datetime.py` (`_parse_isoformat_date`, `_parse_isoformat_time`,
`_parse_hh_mm_ss_ff`), i.e. the format
`YYYY-MM-DD[*HH[:MM[:SS[.fff[fff]]]][+HH:MM[:SS[.ffffff]]]]`, with numeric
fields restricted to ASCII digits. -/

/-- Numeric value of two ASCII digit characters (`int(tstr[pos:pos+2])`). -/
def two : List Char → Option (Nat × List Char)
  | a :: b :: rest =>
    if a.isDigit ∧ b.isDigit then
      some (10 * (a.toNat - 48) + (b.toNat - 48), rest)
    else none
  | _ => none

/-- Numeric value of a list of ASCII digit characters (`int(tstr[pos:])`). -/
def digitsVal : List Char → Option Nat
  | [] => some 0
  | l =>
    if l.all (fun c => c.isDigit) then
      some (l.foldl (fun n c => 10 * n + (c.toNat - 48)) 0)
    else none

/-- CPython `datetime._parse_hh_mm_ss_ff`, yielding
(hour, minute, second, microsecond). -/
def parse_hh_mm_ss_ff (l : List Char) : Option (Nat × Nat × Nat × Nat) :=
  match two l with
  | none => none
  | some (h, r1) =>
    match r1 with
    | [] => some (h, 0, 0, 0)
    | ':' :: r2 =>
      match two r2 with
      | none => none
      | some (mi, r3) =>
        match r3 with
        | [] => some (h, mi, 0, 0)
        | ':' :: r4 =>
          match two r4 with
          | none => none
          | some (s, r5) =>
            match r5 with
            | [] => some (h, mi, s, 0)
            | '.' :: r6 =>
              if r6.length = 3 ∨ r6.length = 6 then
                match digitsVal r6 with
                | none => none
                | some f => some (h, mi, s, if r6.length = 3 then f * 1000 else f)
              else none
            | _ => none
        | _ => none
    | _ => none

/-- Leap-year test (`calendar.isleap`, used by the `datetime` constructor). -/
def isLeap (y : Nat) : Bool := y % 4 = 0 ∧ (y % 100 ≠ 0 ∨ y % 400 = 0)

/-- Days in a month, as enforced by the `datetime` constructor. -/
def daysInMonth (y m : Nat) : Nat :=
  if m = 2 then (if isLeap y then 29 else 28)
  else if m = 4 ∨ m = 6 ∨ m = 9 ∨ m = 11 then 30
  else 31

/-- Range checks performed by the `datetime`/`date` constructor. -/
def dateOk (y m d : Nat) : Bool :=
  1 ≤ y ∧ y ≤ 9999 ∧ 1 ≤ m ∧ m ≤ 12 ∧ 1 ≤ d ∧ d ≤ daysInMonth y m

/-- Range checks performed by the `time` part of the `datetime` constructor. -/
def timeOk (h mi s : Nat) : Bool := h ≤ 23 ∧ mi ≤ 59 ∧ s ≤ 59

/-- Validity of a parsed UTC-offset (`timezone(timedelta(...))` accepts any
offset strictly smaller than 24 hours in magnitude). -/
def tzOffsetOk (th tm ts tf : Nat) : Bool :=
  th * 3600000000 + tm * 60000000 + ts * 1000000 + tf < 24 * 3600000000

/-- CPython `datetime._parse_isoformat_date`, applied to `s[0:10]`. -/
def parse_isoformat_date : List Char → Option (Nat × Nat × Nat)
  | [y1, y2, y3, y4, '-', m1, m2, '-', d1, d2] =>
    if (y1.isDigit ∧ y2.isDigit ∧ y3.isDigit ∧ y4.isDigit) ∧
        (m1.isDigit ∧ m2.isDigit) ∧ (d1.isDigit ∧ d2.isDigit) then
      some (1000 * (y1.toNat - 48) + 100 * (y2.toNat - 48) + 10 * (y3.toNat - 48) + (y4.toNat - 48),
            10 * (m1.toNat - 48) + (m2.toNat - 48),
            10 * (d1.toNat - 48) + (d2.toNat - 48))
    else none
  | _ => none

/-- CPython `datetime._parse_isoformat_time`: the time-of-day part with an
optional `±HH:MM[:SS[.ffffff]]` offset, returning (hour, minute, second,
microsecond) when the whole time string is well-formed. -/
def parse_isoformat_time (l : List Char) : Option (Nat × Nat × Nat × Nat) :=
  if l.length < 2 then none
  else
    let tzpos :=
      match l.findIdx? (fun c => c = '-') with
      | some i => some i
      | none => l.findIdx? (fun c => c = '+')
    match tzpos with
    | none => parse_hh_mm_ss_ff l
    | some i =>
      let timestr := l.take i
      let tzstr := l.drop (i + 1)
      if tzstr.length = 5 ∨ tzstr.length = 8 ∨ tzstr.length = 15 then
        match parse_hh_mm_ss_ff timestr, parse_hh_mm_ss_ff tzstr with
        | some t, some (th, tm, ts, tf) =>
          if tzOffsetOk th tm ts tf then some t else none
        | _, _ => none
      else none

/-- Success of CPython `datetime.fromisoformat` on a string: the first ten
characters are an in-range `YYYY-MM-DD` date; an eleventh character, if
present, is an arbitrary one-character separator that must be followed by a
well-formed, in-range time-of-day (with optional offset). -/
def fromisoformatOk (s : String) : Bool :=
  let l := s.toList
  match parse_isoformat_date (l.take 10) with
  | none => false
  | some (y, m, d) =>
    if ¬ dateOk y m d then false
    else
      match l.drop 10 with
      | [] => true
      | _sep :: t =>
        match parse_isoformat_time t with
        | none => false
        | some (h, mi, s2, _us) => timeOk h mi s2

/-! ### models.py: the `ServiceStatus` dataclass -/

/-- The four fields of the `ServiceStatus` dataclass (models.py:10-24). -/
structure ServiceStatus where
  service_name : String
  service_status : String
  host_name : String
  timestamp : String
deriving Repr, DecidableEq

/-- The `timestamp.replace('Z', '+00:00')` preprocessing of
`ServiceStatus._validate` (models.py:46): Python `str.replace` with the
single-character pattern `'Z'` expands exactly the occurrences of `'Z'`. -/
def replaceZ (s : String) : String :=
  String.mk (s.toList.flatMap (fun c => if c = 'Z' then "+00:00".toList else [c]))

/-- The timestamp clause of `ServiceStatus._validate` (models.py:44-48):
`datetime.fromisoformat(self.timestamp.replace('Z', '+00:00'))` succeeds. -/
def timestampFormatOk (ts : String) : Bool :=
  fromisoformatOk (replaceZ ts)

/-- `ServiceStatus._validate` (models.py:30-48), checks in source order.
`isinstance(..., str)` checks are vacuous in the typed embedding. -/
def ServiceStatus.validate (r : ServiceStatus) : Except String Unit :=
  if r.service_name = "" then .error "service_name must be a non-empty string"
  else if ¬ (r.service_status = "UP" ∨ r.service_status = "DOWN") then
    .error "service_status must be either UP or DOWN"
  else if r.host_name = "" then .error "host_name must be a non-empty string"
  else if r.timestamp = "" then .error "timestamp must be a non-empty string"
  else if ¬ timestampFormatOk r.timestamp then .error "timestamp must be in ISO 8601 format"
  else .ok ()

/-- Construction of a `ServiceStatus`: `__post_init__` runs `_validate`, so
either a fully validated record exists or a `ValueError` is raised and no
record exists (models.py:26-28). -/
def mkServiceStatus (name status host ts : String) : Except String ServiceStatus :=
  match ServiceStatus.validate ⟨name, status, host, ts⟩ with
  | .ok _ => .ok ⟨name, status, host, ts⟩
  | .error e => .error e

/-! ### service_checker.py: `ServiceChecker` -/

/-- Possible outcomes of `subprocess.run(['systemctl', 'is-active', name],
capture_output=True, text=True, timeout=10)`, as distinguished by the
`try/except` arms of `ServiceChecker.check_service_status`. -/
inductive RunOutcome where
  | completed (returncode : Int) (stdout : String)
  | timedOut
  | calledProcessError (msg : String)
  | fileNotFound
  | otherError (msg : String)
deriving Repr, DecidableEq

/-- Whitespace as stripped by Python `str.strip()`: exactly the code points
for which `str.isspace()` holds (CPython `Py_UNICODE_ISSPACE`) — ASCII
whitespace U+0009–U+000D and U+0020, the information separators U+001C–U+001F,
NEL U+0085, NBSP U+00A0, Ogham space U+1680, the Unicode spaces
U+2000–U+200A, the line and paragraph separators U+2028/U+2029, the narrow
no-break space U+202F, the medium mathematical space U+205F, and the
ideographic space U+3000. -/
def isPySpace (c : Char) : Bool :=
  (0x9 ≤ c.toNat ∧ c.toNat ≤ 0xD) ∨ (0x1C ≤ c.toNat ∧ c.toNat ≤ 0x1F) ∨
  c.toNat = 0x20 ∨ c.toNat = 0x85 ∨ c.toNat = 0xA0 ∨ c.toNat = 0x1680 ∨
  (0x2000 ≤ c.toNat ∧ c.toNat ≤ 0x200A) ∨ c.toNat = 0x2028 ∨ c.toNat = 0x2029 ∨
  c.toNat = 0x202F ∨ c.toNat = 0x205F ∨ c.toNat = 0x3000

/-- Python `str.strip()`: drop leading and trailing whitespace. -/
def pyStrip (s : String) : String :=
  String.mk (((s.toList.dropWhile isPySpace).reverse.dropWhile isPySpace).reverse)

/-- `ServiceChecker.check_service_status` (service_checker.py:36-80), with the
supervisor invocation abstracted as `run`. -/
def check_service_status (run : String → RunOutcome) (service_name : String) :
    Except String String :=
  if service_name = "" then .error "service_name must be a non-empty string"
  else
    match run service_name with
    | .completed rc out => if rc = 0 ∧ pyStrip out = "active" then .ok "UP" else .ok "DOWN"
    | .timedOut => .ok "DOWN"
    | .calledProcessError _ => .ok "DOWN"
    | .fileNotFound => .ok "DOWN"
    | .otherError _ => .ok "DOWN"

/-- Environment of an `ApplicationMonitor`: the probe
(`self.service_checker.check_service_status`), the cached hostname
(`get_hostname`), and the host clock (`get_current_timestamp` reads the
clock afresh on every call, modelled as a stream indexed by a call counter). -/
structure CheckerEnv where
  probe : String → Except String String
  hostname : String
  clock : Nat → String

/-! ### app_monitor.py: report assembly -/

/-- `ApplicationMonitor.create_service_status_objects` (app_monitor.py:103-129):
one `get_current_timestamp` call up front, then one `ServiceStatus` per dict
entry, individually skipping entries whose construction raises. Returns the
objects and the clock counter after the call. -/
def create_service_status_objects (env : CheckerEnv) (n : Nat)
    (m : List (String × String)) : List ServiceStatus × Nat :=
  let ts := env.clock n
  (m.filterMap (fun p => (mkServiceStatus p.1 p.2 env.hostname ts).toOption), n + 1)

/-- `ApplicationMonitor.create_rbcapp1_status_object` (app_monitor.py:131-149):
reads the clock once, then constructs the record (which may raise). -/
def create_rbcapp1_status_object (env : CheckerEnv) (n : Nat) (app_status : String) :
    Except String (ServiceStatus × Nat) :=
  let ts := env.clock n
  match mkServiceStatus "rbcapp1" app_status env.hostname ts with
  | .ok r => .ok (r, n + 1)
  | .error e => .error e

/-- The dictionary returned by `ApplicationMonitor.get_full_monitoring_report`. -/
structure Report where
  service_statuses : List (String × String)
  app_status : String
  service_objects : List ServiceStatus
  app_object : ServiceStatus
  timestamp : String
  error : Option String
deriving Repr, DecidableEq

/-- The `except Exception` branch of `get_full_monitoring_report`
(app_monitor.py:176-186): the minimal error report. Its own
`create_rbcapp1_status_object("DOWN")` call may itself raise, in which case
that exception propagates to the caller. -/
def degraded_report (env : CheckerEnv) (n : Nat) (e : String) :
    Except String (Report × Nat) :=
  match create_rbcapp1_status_object env n "DOWN" with
  | .error e2 => .error e2
  | .ok (appObj, n1) =>
    .ok ({ service_statuses := [], app_status := "DOWN", service_objects := [],
           app_object := appObj, timestamp := env.clock n1, error := some e }, n1 + 1)

/-- `ApplicationMonitor.get_full_monitoring_report` (app_monitor.py:151-186).
Each failure point of the `try` block continues into `degraded_report` at the
clock counter current at that point. -/
def get_full_monitoring_report (env : CheckerEnv) (n : Nat) :
    Except String (Report × Nat) :=
  match check_service_statuses env.probe REQUIRED_SERVICES with
  | .error e => degraded_report env n e
  | .ok m =>
    let app_status := determine_app_status m
    match create_service_status_objects env n m with
    | (objs, n1) =>
      match create_rbcapp1_status_object env n1 app_status with
      | .error e => degraded_report env (n1 + 1) e
      | .ok (appObj, n2) =>
        .ok ({ service_statuses := m, app_status := app_status,
               service_objects := objs, app_object := appObj,
               timestamp := env.clock n2, error := none }, n2 + 1)

/-! ### app_monitor.py: snapshot files -/

/-- One character of the filename-safe transform: `:` and `.` become `-`. -/
def safeChar (c : Char) : Char :=
  if c = ':' then '-' else if c = '.' then '-' else c

/-- The filename-safe timestamp of `generate_json_filename` (app_monitor.py:207):
`timestamp.replace(':', '-').replace('.', '-')`. Python `str.replace` with a
single-character pattern substitutes exactly the occurrences of that character,
and the first pass cannot introduce a `.`, so the two passes compose to one
characterwise substitution. -/
def safeTimestamp (ts : String) : String :=
  String.mk (ts.toList.map safeChar)

/-- `ApplicationMonitor.generate_json_filename` (app_monitor.py:188-209); the
callers modelled here always pass an explicit timestamp, so the
`timestamp is None` default branch is not taken. -/
def generate_json_filename (service_name : String) (timestamp : String) :
    Except String String :=
  if service_name = "" then .error "service_name must be a non-empty string"
  else .ok (service_name ++ "-status-" ++ safeTimestamp timestamp ++ ".json")

/-! ### Model of the JSON text written by `json.dump(..., indent=2, ensure_ascii=False)`

`write_status_file` serialises `service_status.to_dict()` — a dict of the four
string fields in declaration order — with `json.dump(..., indent=2,
ensure_ascii=False)`, and the round-trip claim reads the file back with a JSON
parse. Modelled from the spec: CPython's `json` module, specialised to the
snapshot schema (an object of exactly four string members): `dumpsRecord`
produces the exact text `json.dump` writes, and `loads` parses any object of
four string members with JSON whitespace and string escapes (surrogate-pair
escapes, which `json.dump` never emits for these inputs, are not modelled). -/

/-- Lowercase hexadecimal digit, as emitted by `json.dumps` in `\uXXXX`. -/
def hexDigitChar (n : Nat) : Char :=
  if n < 10 then Char.ofNat (48 + n) else Char.ofNat (87 + n)

/-- Value of one hexadecimal digit character (`json` accepts both cases). -/
def hexVal (c : Char) : Option Nat :=
  if '0' ≤ c ∧ c ≤ '9' then some (c.toNat - 48)
  else if 'a' ≤ c ∧ c ≤ 'f' then some (c.toNat - 87)
  else if 'A' ≤ c ∧ c ≤ 'F' then some (c.toNat - 55)
  else none

/-- JSON escaping of one character, as `json.dumps(..., ensure_ascii=False)`
does it: `"` and `\` get a backslash escape, control characters below 0x20 get
their short escape or `\u00xx`, everything else is copied verbatim. -/
def escapeChar (c : Char) : List Char :=
  if c = '"' then ['\\', '"']
  else if c = '\\' then ['\\', '\\']
  else if c = '\x08' then ['\\', 'b']
  else if c = '\x0c' then ['\\', 'f']
  else if c = '\n' then ['\\', 'n']
  else if c = '\x0d' then ['\\', 'r']
  else if c = '\t' then ['\\', 't']
  else if c.toNat < 32 then
    ['\\', 'u', '0', '0', hexDigitChar (c.toNat / 16), hexDigitChar (c.toNat % 16)]
  else [c]

/-- JSON escaping of a character list. -/
def escapeList (s : List Char) : List Char := (s.map escapeChar).flatten

/-- A JSON string literal: quote, escaped body, quote. -/
def quoteStr (s : String) : List Char := '"' :: (escapeList s.toList ++ ['"'])

/-- One `"key": "value"` member, as `json.dump` renders it. -/
def memberChars (k v : String) : List Char := quoteStr k ++ ':' :: ' ' :: quoteStr v

/-- The exact file text produced by `json.dump(service_status.to_dict(), f,
indent=2, ensure_ascii=False)`: `asdict` lists the four fields in declaration
order, `indent=2` puts each member on its own 2-space-indented line. -/
def dumpsRecord (r : ServiceStatus) : String :=
  String.mk ('{' :: '\n' :: ' ' :: ' ' :: (memberChars "service_name" r.service_name
    ++ ',' :: '\n' :: ' ' :: ' ' :: (memberChars "service_status" r.service_status
    ++ ',' :: '\n' :: ' ' :: ' ' :: (memberChars "host_name" r.host_name
    ++ ',' :: '\n' :: ' ' :: ' ' :: (memberChars "timestamp" r.timestamp
    ++ ['\n', '}'])))))

/-- JSON whitespace. -/
def isJsonWs (c : Char) : Bool := c = ' ' ∨ c = '\t' ∨ c = '\n' ∨ c = '\x0d'

/-- Skip JSON whitespace. -/
def skipWs (l : List Char) : List Char := l.dropWhile isJsonWs

/-- Body of a JSON string literal: scan to the closing quote, decoding escape
sequences; bare control characters are rejected (`json.loads` strict mode). -/
def strLoop : List Char → List Char → Option (List Char × List Char)
  | [], _ => none
  | c :: rest, acc =>
    if c = '"' then some (acc.reverse, rest)
    else if c = '\\' then
      match rest with
      | [] => none
      | e :: rest2 =>
        if e = '"' then strLoop rest2 ('"' :: acc)
        else if e = '\\' then strLoop rest2 ('\\' :: acc)
        else if e = '/' then strLoop rest2 ('/' :: acc)
        else if e = 'b' then strLoop rest2 ('\x08' :: acc)
        else if e = 'f' then strLoop rest2 ('\x0c' :: acc)
        else if e = 'n' then strLoop rest2 ('\n' :: acc)
        else if e = 'r' then strLoop rest2 ('\x0d' :: acc)
        else if e = 't' then strLoop rest2 ('\t' :: acc)
        else if e = 'u' then
          match rest2 with
          | a :: b :: c2 :: d :: rest3 =>
            match hexVal a, hexVal b, hexVal c2, hexVal d with
            | some ha, some hb, some hc, some hd =>
              strLoop rest3 (Char.ofNat (4096 * ha + 256 * hb + 16 * hc + hd) :: acc)
            | _, _, _, _ => none
          | _ => none
        else none
    else if 32 ≤ c.toNat then strLoop rest (c :: acc)
    else none

/-- A JSON string literal, returning the decoded string and the rest. -/
def parseStr : List Char → Option (String × List Char)
  | [] => none
  | c :: rest =>
    if c = '"' then
      match strLoop rest [] with
      | some (cs, r) => some (String.mk cs, r)
      | none => none
    else none

/-- One `"key": "value"` member (leading whitespace allowed). -/
def parseMember (l : List Char) : Option ((String × String) × List Char) :=
  match parseStr (skipWs l) with
  | some (k, r) =>
    match skipWs r with
    | [] => none
    | c :: r2 =>
      if c = ':' then
        match parseStr (skipWs r2) with
        | some (v, r3) => some ((k, v), r3)
        | none => none
      else none
  | none => none

/-- A comma between members (leading whitespace allowed). -/
def expectComma (l : List Char) : Option (List Char) :=
  match skipWs l with
  | [] => none
  | c :: r => if c = ',' then some r else none

/-- JSON parse of an object of exactly four string members (the snapshot file
schema), returning the members in textual order. -/
def loads (s : String) : Option (List (String × String)) :=
  match skipWs s.toList with
  | [] => none
  | c :: r =>
    if c = '{' then
      match parseMember r with
      | none => none
      | some (m1, r1) =>
        match expectComma r1 with
        | none => none
        | some r1b =>
          match parseMember r1b with
          | none => none
          | some (m2, r2) =>
            match expectComma r2 with
            | none => none
            | some r2b =>
              match parseMember r2b with
              | none => none
              | some (m3, r3) =>
                match expectComma r3 with
                | none => none
                | some r3b =>
                  match parseMember r3b with
                  | none => none
                  | some (m4, r4) =>
                    match skipWs r4 with
                    | [] => none
                    | c2 :: r5 =>
                      if c2 = '}' then
                        if skipWs r5 = [] then some [m1, m2, m3, m4] else none
                      else none
    else none

/-! ### app_monitor.py: writing snapshot files -/

/-- Python exceptions distinguished by the file-writing paths. -/
inductive PyErr where
  | valueError (msg : String)
  | osError (msg : String)
  | attributeError (msg : String)
deriving Repr, DecidableEq

/-- An element of the list passed to `write_multiple_status_files`: either a
genuine `ServiceStatus` instance, or some other object (which has no
`service_name` attribute). -/
inductive WriteItem where
  | record (r : ServiceStatus)
  | notRecord
deriving Repr, DecidableEq

/-- Filesystem behaviour: the outcome (`OSError` message or success) of
creating the output directory and writing a file at a given path. -/
structure FsEnv where
  writeOutcome : String → Except String Unit

/-- `ApplicationMonitor.write_status_file` (app_monitor.py:211-255): reject a
non-`ServiceStatus` argument with `ValueError`; derive the filename (whose own
`ValueError` for an empty name is re-raised by the bare `raise`); write the
JSON text at `output_dir/filename`, wrapping an `OSError` with context. The
file store maps paths to file contents. -/
def write_status_file (fs : FsEnv) (store : List (String × String))
    (item : WriteItem) (output_dir : String) :
    Except PyErr String × List (String × String) :=
  match item with
  | .notRecord => (.error (.valueError "service_status must be a ServiceStatus instance"), store)
  | .record r =>
    match generate_json_filename r.service_name r.timestamp with
    | .error e => (.error (.valueError e), store)
    | .ok filename =>
      let path := output_dir ++ "/" ++ filename
      match fs.writeOutcome path with
      | .error m => (.error (.osError ("Cannot write status file: " ++ m)), store)
      | .ok _ => (.ok path, dictInsert store path (dumpsRecord r))

/-- The `for service_status in service_statuses` loop of
`write_multiple_status_files` (app_monitor.py:274-281): a failed write is
caught and logged — but the log message reads `service_status.service_name`,
which raises `AttributeError` when the element is not a `ServiceStatus`. -/
def writeLoop (fs : FsEnv) (output_dir : String) :
    List WriteItem → List (String × String) → List String →
    Except PyErr (List String) × List (String × String)
  | [], store, written => (.ok written, store)
  | item :: rest, store, written =>
    match write_status_file fs store item output_dir with
    | (.ok p, store') => writeLoop fs output_dir rest store' (written ++ [p])
    | (.error _, store') =>
      match item with
      | .record _ => writeLoop fs output_dir rest store' written
      | .notRecord =>
        (.error (.attributeError "object has no attribute service_name"), store')

/-- `ApplicationMonitor.write_multiple_status_files` (app_monitor.py:257-286). -/
def write_multiple_status_files (fs : FsEnv) (store : List (String × String))
    (items : List WriteItem) (output_dir : String) :
    Except PyErr (List String) × List (String × String) :=
  writeLoop fs output_dir items store []

/-- The outcome of writing one record — path on success, exception otherwise.
It does not depend on the file store (only on the record, directory and
filesystem behaviour), so it is stated against the empty store. -/
def writeResult (fs : FsEnv) (output_dir : String) (r : ServiceStatus) :
    Except PyErr String :=
  (write_status_file fs [] (.record r) output_dir).1

/-! ### Definitions following the spec's words (for refinement comparisons) -/

/-- Definition following the spec's words for the timestamp clause of the
record invariant: "must parse as a full date-time (date + time-of-day; an
offset or `Z` suffix is accepted but not required)" — a calendar date, a
separator, and a non-optional time-of-day, optionally followed by a UTC
offset, with an optional trailing `Z` accepted. To be compared against the
code-side `timestampFormatOk`. -/
def specFullDateTime (s : String) : Bool :=
  let l := s.toList
  let core := if l.getLast? = some 'Z' then l.dropLast else l
  match parse_isoformat_date (core.take 10), core.drop 10 with
  | some (y, m, d), _sep :: t =>
    dateOk y m d &&
      (match parse_isoformat_time t with
       | some (h, mi, s2, _us) => timeOk h mi s2
       | none => false)
  | _, _ => false

/-- Fractional-second part of an ISO-style timestamp: absent, or three, or six
digits after a dot (the two widths `fromisoformat` accepts). -/
inductive Frac where
  | nofrac
  | milli (a b c : Char)
  | micro (a b c d e f : Char)

/-- UTC designator of an ISO-style timestamp: absent, a `Z` suffix, or a
numeric offset `±HH:MM`, `±HH:MM:SS` or `±HH:MM:SS.ffffff`. -/
inductive Tz where
  | notz
  | zulu
  | hm (sg a1 a2 b1 b2 : Char)
  | hms (sg a1 a2 b1 b2 c1 c2 : Char)
  | hmsf (sg a1 a2 b1 b2 c1 c2 u1 u2 u3 u4 u5 u6 : Char)

/-- Text of the fractional part. -/
def Frac.render : Frac → List Char
  | .nofrac => []
  | .milli a b c => ['.', a, b, c]
  | .micro a b c d e f => ['.', a, b, c, d, e, f]

/-- Digit constraints of the fractional part. -/
def Frac.ok : Frac → Bool
  | .nofrac => true
  | .milli a b c => a.isDigit && b.isDigit && c.isDigit
  | .micro a b c d e f =>
    a.isDigit && b.isDigit && c.isDigit && d.isDigit && e.isDigit && f.isDigit

/-- Text of the UTC designator. -/
def Tz.render : Tz → List Char
  | .notz => []
  | .zulu => ['Z']
  | .hm sg a1 a2 b1 b2 => [sg, a1, a2, ':', b1, b2]
  | .hms sg a1 a2 b1 b2 c1 c2 => [sg, a1, a2, ':', b1, b2, ':', c1, c2]
  | .hmsf sg a1 a2 b1 b2 c1 c2 u1 u2 u3 u4 u5 u6 =>
    [sg, a1, a2, ':', b1, b2, ':', c1, c2, '.', u1, u2, u3, u4, u5, u6]

/-- Sign and digit constraints of the UTC designator. -/
def Tz.ok : Tz → Bool
  | .notz => true
  | .zulu => true
  | .hm sg a1 a2 b1 b2 =>
    (sg = '+' ∨ sg = '-') && a1.isDigit && a2.isDigit && b1.isDigit && b2.isDigit
  | .hms sg a1 a2 b1 b2 c1 c2 =>
    (sg = '+' ∨ sg = '-') && a1.isDigit && a2.isDigit && b1.isDigit && b2.isDigit &&
    c1.isDigit && c2.isDigit
  | .hmsf sg a1 a2 b1 b2 c1 c2 u1 u2 u3 u4 u5 u6 =>
    (sg = '+' ∨ sg = '-') && a1.isDigit && a2.isDigit && b1.isDigit && b2.isDigit &&
    c1.isDigit && c2.isDigit && u1.isDigit && u2.isDigit && u3.isDigit && u4.isDigit &&
    u5.isDigit && u6.isDigit

/-- Parts of an ISO-style date-time string with seconds precision:
`YYYY-MM-DD`, a separator, `HH:MM:SS`, an optional fraction, and an optional
UTC designator. -/
structure IsoShape where
  y1 : Char
  y2 : Char
  y3 : Char
  y4 : Char
  mo1 : Char
  mo2 : Char
  dy1 : Char
  dy2 : Char
  sep : Char
  hr1 : Char
  hr2 : Char
  mi1 : Char
  mi2 : Char
  se1 : Char
  se2 : Char
  frac : Frac
  tz : Tz

/-- The text of an ISO-style timestamp from its parts. -/
def renderIso (p : IsoShape) : List Char :=
  [p.y1, p.y2, p.y3, p.y4, '-', p.mo1, p.mo2, '-', p.dy1, p.dy2, p.sep,
   p.hr1, p.hr2, ':', p.mi1, p.mi2, ':', p.se1, p.se2] ++
    (p.frac.render ++ p.tz.render)

/-- Well-formedness of the parts: digits in the numeric fields, a `T` or space
separator, and valid fraction and UTC-designator parts. -/
def isoOk (p : IsoShape) : Bool :=
  p.y1.isDigit && p.y2.isDigit && p.y3.isDigit && p.y4.isDigit &&
  p.mo1.isDigit && p.mo2.isDigit && p.dy1.isDigit && p.dy2.isDigit &&
  (p.sep = 'T' ∨ p.sep = ' ') &&
  p.hr1.isDigit && p.hr2.isDigit && p.mi1.isDigit && p.mi2.isDigit &&
  p.se1.isDigit && p.se2.isDigit && p.frac.ok && p.tz.ok

/-- An ISO-style date-time string with seconds-or-finer precision: a calendar
date, a `T` or space separator, a full time-of-day, an optional 3- or 6-digit
fraction, and an optional offset or `Z` suffix. -/
def isIsoStyleTs (t : String) : Prop :=
  ∃ p, isoOk p = true ∧ t.data = renderIso p

/-- Left inverse of the filename-safe transform on the tail (fraction and UTC
designator) of an ISO-style timestamp: the possible tail shapes have pairwise
distinct lengths except at 13 and 16, where one character position holds a
digit in one shape and a `-` or sign in the other. -/
def restoreTail : List Char → List Char
  | [_x0, x1, x2, x3] => ['.', x1, x2, x3]
  | [_x0, x1, x2, x3, x4] => ['.', x1, x2, x3, x4]
  | [x0, x1, x2, _x3, x4, x5] => [x0, x1, x2, ':', x4, x5]
  | [_x0, x1, x2, x3, x4, x5, x6] => ['.', x1, x2, x3, x4, x5, x6]
  | [_x0, x1, x2, x3, x4, x5, x6, x7] => ['.', x1, x2, x3, x4, x5, x6, x7]
  | [x0, x1, x2, _x3, x4, x5, _x6, x7, x8] => [x0, x1, x2, ':', x4, x5, ':', x7, x8]
  | [_x0, x1, x2, x3, x4, x5, x6, _x7, x8, x9] => ['.', x1, x2, x3, x4, x5, x6, ':', x8, x9]
  | [_x0, x1, x2, x3, x4, x5, x6, x7, x8, x9, _x10, x11, x12] =>
    if x4.isDigit then ['.', x1, x2, x3, x4, x5, x6, x7, x8, x9, ':', x11, x12]
    else ['.', x1, x2, x3, x4, x5, x6, ':', x8, x9, ':', x11, x12]
  | [x0, x1, x2, x3, x4, x5, x6, x7, x8, x9, x10, x11, x12, x13, x14, x15] =>
    if x3.isDigit then ['.', x1, x2, x3, x4, x5, x6, x7, x8, x9, ':', x11, x12, ':', x14, x15]
    else [x0, x1, x2, ':', x4, x5, ':', x7, x8, '.', x10, x11, x12, x13, x14, x15]
  | [_x0, x1, x2, x3, x4, x5, x6, _x7, x8, x9, _x10, x11, x12, _x13, x14, x15, x16, x17,
     x18, x19] =>
    ['.', x1, x2, x3, x4, x5, x6, ':', x8, x9, ':', x11, x12, '.', x14, x15, x16, x17,
     x18, x19]
  | [_x0, x1, x2, x3, x4, x5, x6, x7, x8, x9, _x10, x11, x12, _x13, x14, x15, _x16, x17,
     x18, x19, x20, x21, x22] =>
    ['.', x1, x2, x3, x4, x5, x6, x7, x8, x9, ':', x11, x12, ':', x14, x15, '.', x17,
     x18, x19, x20, x21, x22]
  | l => l

/-- Left inverse of the filename-safe transform on whole ISO-style timestamps:
restore the two `:` of the time-of-day and delegate the tail. -/
def restoreIso (l : List Char) : List Char :=
  match l with
  | x0 :: x1 :: x2 :: x3 :: x4 :: x5 :: x6 :: x7 :: x8 :: x9 :: x10 :: x11 :: x12 :: _x13 ::
      x14 :: x15 :: _x16 :: x17 :: x18 :: tail =>
    x0 :: x1 :: x2 :: x3 :: x4 :: x5 :: x6 :: x7 :: x8 :: x9 :: x10 :: x11 :: x12 :: ':' ::
      x14 :: x15 :: ':' :: x17 :: x18 :: restoreTail tail
  | l => l

/-! ### Concrete instances used by witnesses and counterexamples -/

/-- Probe used by the witness of `checkAll_spec`: raises for "rabbitmq" only. -/
def probeW : String → Except String String :=
  fun s => if s = "rabbitmq" then .error "boom" else .ok "UP"

/-- Environment with an empty hostname: every record construction fails, also
in the `except` branch of report assembly. -/
def envBad : CheckerEnv :=
  ⟨fun _ => .ok "UP", "", fun _ => "2024-01-15T10:30:00Z"⟩

/-- Environment whose clock yields an invalid timestamp exactly at the second
read (the application-record construction), driving report assembly into its
`except` branch, which then succeeds. -/
def envDeg : CheckerEnv :=
  ⟨fun _ => .ok "UP", "host1", fun k => if k = 1 then "bad-ts" else "2024-01-15T10:30:00Z"⟩

/-- Environment whose clock advances by one second between consecutive reads. -/
def envTick : CheckerEnv :=
  ⟨fun _ => .ok "UP", "h", fun k =>
    if k = 0 then "2024-01-15T10:30:05Z"
    else if k = 1 then "2024-01-15T10:30:06Z" else "2024-01-15T10:30:07Z"⟩

/-- The report assembled under `envTick` (three dependency records stamped at
the first clock read, the application record at the second, the report field
at the third). -/
def repTick : Report :=
  { service_statuses := [("httpd", "UP"), ("rabbitmq", "UP"), ("postgresql", "UP")],
    app_status := "UP",
    service_objects :=
      [⟨"httpd", "UP", "h", "2024-01-15T10:30:05Z"⟩,
       ⟨"rabbitmq", "UP", "h", "2024-01-15T10:30:05Z"⟩,
       ⟨"postgresql", "UP", "h", "2024-01-15T10:30:05Z"⟩],
    app_object := ⟨"rbcapp1", "UP", "h", "2024-01-15T10:30:06Z"⟩,
    timestamp := "2024-01-15T10:30:07Z",
    error := none }

/-- Environment whose clock string is constant across the assembly. -/
def envShared : CheckerEnv :=
  ⟨fun _ => .ok "UP", "h", fun _ => "2024-01-15T10:30:00Z"⟩

/-- Filesystem on which every write succeeds. -/
def fsOkAll : FsEnv := ⟨fun _ => .ok ()⟩

/-- Filesystem on which exactly the write of record "b"'s snapshot fails with a
permission error. -/
def fsPerm : FsEnv :=
  ⟨fun p => if p = "data/b-status-2024-01-15T10-30-00Z.json" then
    .error "Permission denied" else .ok ()⟩

/-- Three valid records used by the batch-writing witnesses. -/
def recA : ServiceStatus := ⟨"a", "UP", "h", "2024-01-15T10:30:00Z"⟩

/-- Second of the three records (its write fails under `fsPerm`). -/
def recB : ServiceStatus := ⟨"b", "UP", "h", "2024-01-15T10:30:00Z"⟩

/-- Third of the three records. -/
def recC : ServiceStatus := ⟨"c", "DOWN", "h", "2024-01-15T10:30:00Z"⟩

/-! ### Lemmas about the status-map model -/

theorem alookup_dictInsert_self (m : List (String × String)) (k v : String) :
    alookup (dictInsert m k v) k = some v := by
  induction m with
  | nil => simp [dictInsert, alookup]
  | cons p rest ih =>
    obtain ⟨k', v'⟩ := p
    by_cases hk : k' = k
    · subst hk; simp [dictInsert, alookup]
    · simp [dictInsert, alookup, hk, ih]

theorem alookup_dictInsert_ne (m : List (String × String)) (k v s : String)
    (h : s ≠ k) : alookup (dictInsert m k v) s = alookup m s := by
  induction m with
  | nil => simp [dictInsert, alookup, Ne.symm h]
  | cons p rest ih =>
    obtain ⟨k', v'⟩ := p
    by_cases hk : k' = k
    · subst hk
      simp [dictInsert, alookup, Ne.symm h]
    · simp [dictInsert, alookup, hk, ih]

theorem alookup_checkLoop (probe : String → Except String String)
    (services : List String) (acc : List (String × String)) (s : String) :
    alookup (checkLoop probe services acc) s =
      if s ∈ services then some (probeResult probe s) else alookup acc s := by
  induction services generalizing acc with
  | nil => simp [checkLoop]
  | cons x rest ih =>
    simp only [checkLoop]
    rw [ih]
    by_cases hs : s ∈ rest
    · simp [hs]
    · by_cases hx : s = x
      · subst hx
        simp [hs, alookup_dictInsert_self]
      · simp [hs, hx, alookup_dictInsert_ne acc x (probeResult probe x) s hx]

theorem requiredLoop_eq_up_iff (m : List (String × String)) (l : List String) :
    requiredLoop m l = "UP" ↔ ∀ s ∈ l, alookup m s = some "UP" := by
  induction l with
  | nil => simp [requiredLoop]
  | cons s rest ih =>
    cases h : alookup m s with
    | none =>
      rw [show requiredLoop m (s :: rest) = "DOWN" from by simp [requiredLoop, h]]
      constructor
      · intro hud; exact absurd hud (by decide)
      · intro hall
        have := hall s (List.mem_cons_self s rest)
        simp [h] at this
    | some v =>
      by_cases hv : v = "UP"
      · subst hv
        rw [show requiredLoop m (s :: rest) = requiredLoop m rest from by
          simp [requiredLoop, h]]
        rw [ih]
        constructor
        · intro hall x hx
          rcases List.mem_cons.mp hx with hx | hx
          · subst hx; exact h
          · exact hall x hx
        · intro hall x hx; exact hall x (List.mem_cons_of_mem s hx)
      · rw [show requiredLoop m (s :: rest) = "DOWN" from by simp [requiredLoop, h, hv]]
        constructor
        · intro hud; exact absurd hud (by decide)
        · intro hall
          have := hall s (List.mem_cons_self s rest)
          rw [h] at this
          exact absurd (Option.some.inj this) hv

theorem requiredLoop_up_or_down (m : List (String × String)) (l : List String) :
    requiredLoop m l = "UP" ∨ requiredLoop m l = "DOWN" := by
  induction l with
  | nil => left; rfl
  | cons s rest ih =>
    cases h : alookup m s with
    | none => right; simp [requiredLoop, h]
    | some v =>
      by_cases hv : v = "UP"
      · rw [show requiredLoop m (s :: rest) = requiredLoop m rest from by
          simp [requiredLoop, h, hv]]
        exact ih
      · right; simp [requiredLoop, h, hv]

theorem requiredLoop_congr (m m' : List (String × String)) (l : List String)
    (h : ∀ s ∈ l, alookup m' s = alookup m s) :
    requiredLoop m' l = requiredLoop m l := by
  induction l with
  | nil => rfl
  | cons s rest ih =>
    have hs : alookup m' s = alookup m s := h s (List.mem_cons_self s rest)
    cases h2 : alookup m s with
    | none => simp [requiredLoop, hs, h2]
    | some v =>
      by_cases hv : v = "UP"
      · rw [show requiredLoop m' (s :: rest) = requiredLoop m' rest from by
            simp [requiredLoop, hs, h2, hv],
          show requiredLoop m (s :: rest) = requiredLoop m rest from by
            simp [requiredLoop, h2, hv]]
        exact ih fun x hx => h x (List.mem_cons_of_mem s hx)
      · simp [requiredLoop, hs, h2, hv]

theorem determine_up_or_down (m : List (String × String)) :
    determine_app_status m = "UP" ∨ determine_app_status m = "DOWN" := by
  unfold determine_app_status
  by_cases h : m = []
  · simp [h]
  · simpa [h] using requiredLoop_up_or_down m REQUIRED_SERVICES

/-- C1: `deriveVerdict` (`determine_app_status`) returns UP iff every name of
`REQUIRED_SERVICES` is present in the status map with value "UP"; in every
other case it returns DOWN (the result is always one of the two), and the
result depends only on the map's values at the configured names, so names
outside the configured set have no effect. -/
theorem deriveVerdict_spec (m : List (String × String)) :
    (determine_app_status m = "UP" ↔
      ∀ s ∈ REQUIRED_SERVICES, alookup m s = some "UP")
    ∧ (determine_app_status m = "UP" ∨ determine_app_status m = "DOWN")
    ∧ (∀ m', (∀ s ∈ REQUIRED_SERVICES, alookup m' s = alookup m s) →
        determine_app_status m' = determine_app_status m) := by
  refine ⟨?_, determine_up_or_down m, ?_⟩
  · unfold determine_app_status
    by_cases h : m = []
    · subst h
      simp only [if_pos rfl]
      constructor
      · intro hud; exact absurd hud (by decide)
      · intro hall
        have := hall "httpd" (by simp [REQUIRED_SERVICES])
        simp [alookup] at this
    · simpa [h] using requiredLoop_eq_up_iff m REQUIRED_SERVICES
  · intro m' hm
    unfold determine_app_status
    by_cases h : m = [] <;> by_cases h' : m' = []
    · simp [h, h']
    · subst h
      have hdown : alookup m' "httpd" = none := by
        simpa [alookup] using hm "httpd" (by simp [REQUIRED_SERVICES])
      simp [h', REQUIRED_SERVICES, requiredLoop, hdown]
    · subst h'
      have hdown : alookup m "httpd" = none := by
        have := hm "httpd" (by simp [REQUIRED_SERVICES])
        simpa [alookup] using this.symm
      simp [h, REQUIRED_SERVICES, requiredLoop, hdown]
    · simpa [h, h'] using requiredLoop_congr m m' REQUIRED_SERVICES hm

/-- Witness for `deriveVerdict_spec`: an all-UP map with an extra DOWN name is
judged UP. -/
theorem deriveVerdict_spec_witness :
    determine_app_status
      [("httpd", "UP"), ("rabbitmq", "UP"), ("postgresql", "UP"), ("extra", "DOWN")] = "UP" :=
  (deriveVerdict_spec _).1.mpr (by decide)

/-- C6: for a non-empty name, `check_service_status` always returns a status
(never an error), and returns UP exactly when the supervisor invocation
completed with exit code 0 and stripped output "active"; every other outcome
(other exit code or output, timeout, missing binary, other error) gives DOWN. -/
theorem checkStatus_spec (run : String → RunOutcome) (name : String) (h : name ≠ "") :
    (check_service_status run name = .ok "UP" ∨ check_service_status run name = .ok "DOWN")
    ∧ (check_service_status run name = .ok "UP" ↔
        ∃ out, run name = .completed 0 out ∧ pyStrip out = "active") := by
  refine ⟨?_, ?_, ?_⟩
  · cases hr : run name with
    | completed rc out =>
      by_cases hc : rc = 0 ∧ pyStrip out = "active"
      · left; simp [check_service_status, h, hr, hc]
      · right; simp [check_service_status, h, hr, hc]
    | timedOut => right; simp [check_service_status, h, hr]
    | calledProcessError msg => right; simp [check_service_status, h, hr]
    | fileNotFound => right; simp [check_service_status, h, hr]
    | otherError msg => right; simp [check_service_status, h, hr]
  · intro hup
    cases hr : run name with
    | completed rc out =>
      by_cases hc : rc = 0 ∧ pyStrip out = "active"
      · exact ⟨out, by rw [hc.1], hc.2⟩
      · simp [check_service_status, h, hr, hc] at hup
    | timedOut => simp [check_service_status, h, hr] at hup
    | calledProcessError msg => simp [check_service_status, h, hr] at hup
    | fileNotFound => simp [check_service_status, h, hr] at hup
    | otherError msg => simp [check_service_status, h, hr] at hup
  · rintro ⟨o, ho, hstrip⟩
    simp [check_service_status, h, ho, hstrip]

/-- Witness for `checkStatus_spec`: a successful invocation whose output strips
to "active" yields UP — including outputs padded with the non-ASCII whitespace
(file separator U+001C, no-break space U+00A0) that `str.strip()` removes. -/
theorem checkStatus_spec_witness :
    check_service_status (fun _ => RunOutcome.completed 0 "\x1c active\u00A0\n") "httpd" =
      .ok "UP" :=
  (checkStatus_spec (fun _ => RunOutcome.completed 0 "\x1c active\u00A0\n") "httpd"
    (by decide)).2.mpr ⟨"\x1c active\u00A0\n", rfl, by decide⟩

/-- C2: `checkAll` (`check_service_statuses`) fails exactly on the empty name
list; on every non-empty list it returns (without an exception) a map whose
key set is exactly the input names, with each name mapped to the probe's
result — or "DOWN" when the probe raised for that name — and so, whenever the
probe only ever returns UP or DOWN, every value of the map is UP or DOWN. -/
theorem checkAll_spec (probe : String → Except String String) (services : List String) :
    (services = [] →
      check_service_statuses probe services = .error "services list cannot be empty")
    ∧ (services ≠ [] → ∃ m, check_service_statuses probe services = .ok m
        ∧ (∀ s, (alookup m s).isSome ↔ s ∈ services)
        ∧ (∀ s ∈ services, alookup m s = some (probeResult probe s))
        ∧ ((∀ s r, probe s = .ok r → r = "UP" ∨ r = "DOWN") →
            ∀ s v, alookup m s = some v → v = "UP" ∨ v = "DOWN")) := by
  constructor
  · intro h; simp [check_service_statuses, h]
  · intro h
    refine ⟨checkLoop probe services [], by simp [check_service_statuses, h], ?_, ?_, ?_⟩
    · intro s
      rw [alookup_checkLoop]
      by_cases hs : s ∈ services <;> simp [hs, alookup]
    · intro s hs
      rw [alookup_checkLoop]; simp [hs]
    · intro hp s v hv
      rw [alookup_checkLoop] at hv
      by_cases hs : s ∈ services
      · rw [if_pos hs] at hv
        have hveq := Option.some.inj hv
        subst hveq
        cases hps : probe s with
        | ok r => simpa [probeResult, hps] using hp s r hps
        | error e => simp [probeResult, hps]
      · rw [if_neg hs] at hv; simp [alookup] at hv

/-- Witness for `checkAll_spec`: one raising probe out of three names is
recorded as DOWN, the other two keep their probe results. -/
theorem checkAll_spec_witness :
    ∃ m, check_service_statuses probeW ["httpd", "rabbitmq", "postgresql"] = .ok m
      ∧ alookup m "httpd" = some "UP" ∧ alookup m "rabbitmq" = some "DOWN"
      ∧ alookup m "postgresql" = some "UP" := by
  obtain ⟨m, hm, hdom, hval, hud⟩ :=
    (checkAll_spec probeW ["httpd", "rabbitmq", "postgresql"]).2 (by decide)
  refine ⟨m, hm, ?_, ?_, ?_⟩
  · rw [hval "httpd" (by decide)]; rfl
  · rw [hval "rabbitmq" (by decide)]; rfl
  · rw [hval "postgresql" (by decide)]; rfl

/-! ### C3: record construction -/

theorem validate_ok_iff (r : ServiceStatus) :
    r.validate = .ok () ↔
      (r.service_name ≠ "" ∧ (r.service_status = "UP" ∨ r.service_status = "DOWN")
        ∧ r.host_name ≠ "" ∧ r.timestamp ≠ "" ∧ timestampFormatOk r.timestamp = true) := by
  unfold ServiceStatus.validate
  split_ifs <;> simp_all

/-- C3 (amended): constructing a `ServiceStatus` succeeds if and only if the
name, host and timestamp are non-empty, the status is exactly UP or DOWN, and
the timestamp — after each `Z` is replaced by `+00:00` — is accepted by
`datetime.fromisoformat` (which requires a date but, contrary to the original
claim, not a time-of-day); a successful construction returns exactly the four
given field values, and an invalid field always yields a `ValueError` with no
record produced. -/
theorem statusRecord_construction_spec (n s h t : String) :
    ((∃ r, mkServiceStatus n s h t = .ok r) ↔
      (n ≠ "" ∧ (s = "UP" ∨ s = "DOWN") ∧ h ≠ "" ∧ t ≠ ""
        ∧ timestampFormatOk t = true))
    ∧ (∀ r, mkServiceStatus n s h t = .ok r → r = ⟨n, s, h, t⟩)
    ∧ (¬ (n ≠ "" ∧ (s = "UP" ∨ s = "DOWN") ∧ h ≠ "" ∧ t ≠ ""
        ∧ timestampFormatOk t = true) →
        ∃ e, mkServiceStatus n s h t = .error e) := by
  have hiff := validate_ok_iff ⟨n, s, h, t⟩
  refine ⟨?_, ?_, ?_⟩
  · constructor
    · rintro ⟨r, hr⟩
      unfold mkServiceStatus at hr
      cases hv : ServiceStatus.validate ⟨n, s, h, t⟩ with
      | ok u => exact hiff.mp (by rw [hv])
      | error e => rw [hv] at hr; exact absurd hr (by simp)
    · intro hvalid
      exact ⟨⟨n, s, h, t⟩, by unfold mkServiceStatus; rw [hiff.mpr hvalid]⟩
  · intro r hr
    unfold mkServiceStatus at hr
    cases hv : ServiceStatus.validate ⟨n, s, h, t⟩ with
    | ok u => rw [hv] at hr; exact (Except.ok.inj hr).symm
    | error e => rw [hv] at hr; exact absurd hr (by simp)
  · intro hinvalid
    cases hv : ServiceStatus.validate ⟨n, s, h, t⟩ with
    | ok u =>
      obtain ⟨⟩ := u
      exact absurd (hiff.mp hv) hinvalid
    | error e => exact ⟨e, by unfold mkServiceStatus; rw [hv]⟩

/-- Witness for `statusRecord_construction_spec`: a fully valid record is
constructed. -/
theorem statusRecord_construction_spec_witness :
    ∃ r, mkServiceStatus "httpd" "UP" "hostname" "2024-01-15T10:30:00Z" = .ok r :=
  (statusRecord_construction_spec "httpd" "UP" "hostname" "2024-01-15T10:30:00Z").1.mpr
    ⟨by decide, Or.inl rfl, by decide, by decide, by decide⟩

/-- C3 counterexample: the code accepts the date-only timestamp "2024-01-02"
(no time-of-day), so construction succeeds on a timestamp that is not a full
date-time in the sense of the claim. -/
theorem statusRecord_dateOnly_counterexample :
    mkServiceStatus "svc" "UP" "host" "2024-01-02" =
      .ok ⟨"svc", "UP", "host", "2024-01-02"⟩
    ∧ specFullDateTime "2024-01-02" = false :=
  ⟨rfl, rfl⟩

/-! ### C4, C5: report assembly -/

theorem check_required_eq (probe : String → Except String String) :
    check_service_statuses probe REQUIRED_SERVICES = .ok (requiredStatusMap probe) := rfl

theorem mkServiceStatus_ok_of_valid (n s h t : String) (hn : n ≠ "")
    (hs : s = "UP" ∨ s = "DOWN") (hh : h ≠ "") (ht : t ≠ "")
    (htf : timestampFormatOk t = true) :
    mkServiceStatus n s h t = .ok ⟨n, s, h, t⟩ := by
  unfold mkServiceStatus
  rw [(validate_ok_iff ⟨n, s, h, t⟩).mpr ⟨hn, hs, hh, ht, htf⟩]

theorem mkServiceStatus_ok_elim (n s h t : String) (r : ServiceStatus)
    (hr : mkServiceStatus n s h t = .ok r) : r = ⟨n, s, h, t⟩ := by
  unfold mkServiceStatus at hr
  cases hv : ServiceStatus.validate ⟨n, s, h, t⟩ with
  | ok u => rw [hv] at hr; exact (Except.ok.inj hr).symm
  | error e => rw [hv] at hr; exact absurd hr (by simp)

theorem probeResult_up_or_down (probe : String → Except String String) (s : String)
    (hp : ∀ s r, probe s = .ok r → r = "UP" ∨ r = "DOWN") :
    probeResult probe s = "UP" ∨ probeResult probe s = "DOWN" := by
  cases hps : probe s with
  | ok r => simpa [probeResult, hps] using hp s r hps
  | error e => simp [probeResult, hps]

theorem timestampFormatOk_ne_empty (t : String) (h : timestampFormatOk t = true) :
    t ≠ "" := by
  intro he; subst he; exact absurd h (by decide)

theorem degraded_report_shape (env : CheckerEnv) (k : Nat) (e : String)
    (r : ServiceStatus)
    (h : mkServiceStatus "rbcapp1" "DOWN" env.hostname (env.clock k) = .ok r) :
    degraded_report env k e =
      .ok ({ service_statuses := [], app_status := "DOWN", service_objects := [],
             app_object := r, timestamp := env.clock (k + 1), error := some e },
           k + 2) := by
  simp only [degraded_report, create_rbcapp1_status_object, h]

theorem get_full_shape (env : CheckerEnv) (n : Nat) :
    (∃ r, mkServiceStatus "rbcapp1"
        (determine_app_status (requiredStatusMap env.probe)) env.hostname
        (env.clock (n + 1)) = .ok r
      ∧ get_full_monitoring_report env n =
        .ok ({ service_statuses := requiredStatusMap env.probe,
               app_status := determine_app_status (requiredStatusMap env.probe),
               service_objects := (requiredStatusMap env.probe).filterMap
                 (fun p => (mkServiceStatus p.1 p.2 env.hostname (env.clock n)).toOption),
               app_object := r, timestamp := env.clock (n + 2), error := none },
             n + 3))
    ∨ (∃ e, mkServiceStatus "rbcapp1"
        (determine_app_status (requiredStatusMap env.probe)) env.hostname
        (env.clock (n + 1)) = .error e
      ∧ get_full_monitoring_report env n = degraded_report env (n + 2) e) := by
  cases hmk : mkServiceStatus "rbcapp1"
      (determine_app_status (requiredStatusMap env.probe)) env.hostname
      (env.clock (n + 1)) with
  | ok r =>
    left
    refine ⟨r, rfl, ?_⟩
    simp only [get_full_monitoring_report, check_required_eq,
      create_service_status_objects, create_rbcapp1_status_object, hmk]
  | error e =>
    right
    refine ⟨e, rfl, ?_⟩
    simp only [get_full_monitoring_report, check_required_eq,
      create_service_status_objects, create_rbcapp1_status_object, hmk]

/-- C4 (amended): report assembly never propagates an exception provided the
construction of the fallback application record in the error path succeeds
(the hostname is non-empty and the clock string read in the `except` branch is
a valid timestamp); without that proviso the `except` branch itself can raise.
Whenever an exception was caught during assembly, the returned degraded report
has an empty status map, verdict DOWN, no dependency records, and an
application record with status DOWN (carrying the error description in its
`error` field). -/
theorem buildReport_never_throws (env : CheckerEnv) (n : Nat)
    (hfix : ∃ r, mkServiceStatus "rbcapp1" "DOWN" env.hostname (env.clock (n + 2)) = .ok r) :
    (∃ rep n', get_full_monitoring_report env n = .ok (rep, n'))
    ∧ (∀ rep n', get_full_monitoring_report env n = .ok (rep, n') →
        ∀ e, rep.error = some e →
          rep.service_statuses = [] ∧ rep.app_status = "DOWN"
          ∧ rep.service_objects = [] ∧ rep.app_object.service_status = "DOWN") := by
  obtain ⟨rfix, hrfix⟩ := hfix
  have hfixfields := mkServiceStatus_ok_elim _ _ _ _ _ hrfix
  rcases get_full_shape env n with ⟨r, -, hget⟩ | ⟨e2, -, hget⟩
  · refine ⟨⟨_, _, hget⟩, ?_⟩
    intro rep n' heq e herr
    have hrep : _ = rep := congrArg Prod.fst (Except.ok.inj (hget.symm.trans heq))
    rw [← hrep] at herr
    simp at herr
  · rw [degraded_report_shape env (n + 2) e2 rfix hrfix] at hget
    refine ⟨⟨_, _, hget⟩, ?_⟩
    intro rep n' heq e herr
    have hrep : _ = rep := congrArg Prod.fst (Except.ok.inj (hget.symm.trans heq))
    rw [← hrep]
    refine ⟨rfl, rfl, rfl, ?_⟩
    rw [hfixfields]

/-- Witness for `buildReport_never_throws`: under `envDeg` (invalid clock
string at the second read) assembly still returns a report. -/
theorem buildReport_never_throws_witness :
    (∃ rep n', get_full_monitoring_report envDeg 0 = .ok (rep, n'))
    ∧ (∀ rep n', get_full_monitoring_report envDeg 0 = .ok (rep, n') →
        ∀ e, rep.error = some e →
          rep.service_statuses = [] ∧ rep.app_status = "DOWN"
          ∧ rep.service_objects = [] ∧ rep.app_object.service_status = "DOWN") :=
  buildReport_never_throws envDeg 0
    ⟨⟨"rbcapp1", "DOWN", "host1", "2024-01-15T10:30:00Z"⟩, rfl⟩

/-- C4 counterexample: with an empty hostname every record construction fails,
including the one inside the `except` branch, so report assembly propagates
the exception to its caller — the claim's "for every behaviour of record
construction, it returns a report" is false. -/
theorem buildReport_throws_counterexample :
    get_full_monitoring_report envBad 0 = .error "host_name must be a non-empty string" :=
  rfl

/-- C5 (amended): on the non-degraded path the report contains exactly one
record per status-map entry (with that entry's name and status) plus one
application record; the dependency records all share the timestamp of the
first clock read, while the application record and the report's own timestamp
field come from two further clock reads — all timestamps in the report
coincide when these clock reads return equal strings, but not in general. -/
theorem buildReport_nondegraded (env : CheckerEnv) (n : Nat)
    (hhost : env.hostname ≠ "")
    (hts0 : timestampFormatOk (env.clock n) = true)
    (hts1 : timestampFormatOk (env.clock (n + 1)) = true)
    (hprobe : ∀ s r, env.probe s = .ok r → r = "UP" ∨ r = "DOWN") :
    ∃ rep, get_full_monitoring_report env n = .ok (rep, n + 3)
      ∧ rep.error = none
      ∧ rep.service_objects = rep.service_statuses.map
          (fun p => (⟨p.1, p.2, env.hostname, env.clock n⟩ : ServiceStatus))
      ∧ rep.app_object = ⟨"rbcapp1", rep.app_status, env.hostname, env.clock (n + 1)⟩
      ∧ rep.timestamp = env.clock (n + 2)
      ∧ (env.clock (n + 1) = env.clock n → env.clock (n + 2) = env.clock n →
          (∀ o ∈ rep.service_objects, o.timestamp = rep.timestamp)
          ∧ rep.app_object.timestamp = rep.timestamp) := by
  have h1 : mkServiceStatus "httpd" (probeResult env.probe "httpd") env.hostname
      (env.clock n) =
      .ok ⟨"httpd", probeResult env.probe "httpd", env.hostname, env.clock n⟩ :=
    mkServiceStatus_ok_of_valid _ _ _ _ (by decide)
      (probeResult_up_or_down env.probe "httpd" hprobe) hhost
      (timestampFormatOk_ne_empty _ hts0) hts0
  have h2 : mkServiceStatus "rabbitmq" (probeResult env.probe "rabbitmq") env.hostname
      (env.clock n) =
      .ok ⟨"rabbitmq", probeResult env.probe "rabbitmq", env.hostname, env.clock n⟩ :=
    mkServiceStatus_ok_of_valid _ _ _ _ (by decide)
      (probeResult_up_or_down env.probe "rabbitmq" hprobe) hhost
      (timestampFormatOk_ne_empty _ hts0) hts0
  have h3 : mkServiceStatus "postgresql" (probeResult env.probe "postgresql") env.hostname
      (env.clock n) =
      .ok ⟨"postgresql", probeResult env.probe "postgresql", env.hostname, env.clock n⟩ :=
    mkServiceStatus_ok_of_valid _ _ _ _ (by decide)
      (probeResult_up_or_down env.probe "postgresql" hprobe) hhost
      (timestampFormatOk_ne_empty _ hts0) hts0
  have happ : mkServiceStatus "rbcapp1"
      (determine_app_status (requiredStatusMap env.probe)) env.hostname
      (env.clock (n + 1)) =
      .ok ⟨"rbcapp1", determine_app_status (requiredStatusMap env.probe), env.hostname,
        env.clock (n + 1)⟩ :=
    mkServiceStatus_ok_of_valid _ _ _ _ (by decide)
      (determine_up_or_down _) hhost (timestampFormatOk_ne_empty _ hts1) hts1
  have hobjs : (requiredStatusMap env.probe).filterMap
      (fun p => (mkServiceStatus p.1 p.2 env.hostname (env.clock n)).toOption) =
      [⟨"httpd", probeResult env.probe "httpd", env.hostname, env.clock n⟩,
       ⟨"rabbitmq", probeResult env.probe "rabbitmq", env.hostname, env.clock n⟩,
       ⟨"postgresql", probeResult env.probe "postgresql", env.hostname, env.clock n⟩] := by
    simp [requiredStatusMap, h1, h2, h3, Except.toOption]
  rcases get_full_shape env n with ⟨r, hmk, hget⟩ | ⟨e, hmk, -⟩
  · have hr : r = ⟨"rbcapp1", determine_app_status (requiredStatusMap env.probe),
        env.hostname, env.clock (n + 1)⟩ := Except.ok.inj (hmk.symm.trans happ)
    have hmap :
        ([⟨"httpd", probeResult env.probe "httpd", env.hostname, env.clock n⟩,
          ⟨"rabbitmq", probeResult env.probe "rabbitmq", env.hostname, env.clock n⟩,
          ⟨"postgresql", probeResult env.probe "postgresql", env.hostname, env.clock n⟩]
          : List ServiceStatus) =
        (requiredStatusMap env.probe).map
          (fun p => ⟨p.1, p.2, env.hostname, env.clock n⟩) := by
      simp [requiredStatusMap]
    refine ⟨_, hget, rfl, hobjs.trans hmap, hr, rfl, ?_⟩
    intro ha hb
    constructor
    · intro o ho
      have ho2 : o ∈
          [(⟨"httpd", probeResult env.probe "httpd", env.hostname, env.clock n⟩ : ServiceStatus),
           ⟨"rabbitmq", probeResult env.probe "rabbitmq", env.hostname, env.clock n⟩,
           ⟨"postgresql", probeResult env.probe "postgresql", env.hostname, env.clock n⟩] := by
        rw [← hobjs]; exact ho
      simp only [List.mem_cons, List.not_mem_nil, or_false] at ho2
      rcases ho2 with rfl | rfl | rfl <;> exact hb.symm
    · exact (congrArg ServiceStatus.timestamp hr).trans (ha.trans hb.symm)
  · rw [happ] at hmk
    exact absurd hmk (by simp)

/-- Witness for `buildReport_nondegraded`: with a constant clock string every
timestamp in the report is equal. -/
theorem buildReport_nondegraded_witness :
    ∃ rep, get_full_monitoring_report envShared 0 = .ok (rep, 3)
      ∧ rep.error = none
      ∧ (∀ o ∈ rep.service_objects, o.timestamp = rep.timestamp)
      ∧ rep.app_object.timestamp = rep.timestamp := by
  obtain ⟨rep, hget, herr, -, -, -, hshared⟩ :=
    buildReport_nondegraded envShared 0 (by decide) (by decide) (by decide)
      (by intro s r hr; exact Or.inl (Except.ok.inj hr).symm)
  obtain ⟨hdeps, happ⟩ := hshared rfl rfl
  exact ⟨rep, hget, herr, hdeps, happ⟩

/-- C5 counterexample: under a clock that advances between reads, a
non-degraded report carries three different timestamps — the dependency
records, the application record and the report's own timestamp field are
stamped by three separate clock reads, so "every timestamp string in the
report is equal" fails. -/
theorem buildReport_shared_timestamp_counterexample :
    get_full_monitoring_report envTick 0 = .ok (repTick, 3)
    ∧ repTick.error = none
    ∧ repTick.app_object.timestamp ≠ repTick.timestamp
    ∧ ∃ o ∈ repTick.service_objects, o.timestamp ≠ repTick.timestamp := by
  refine ⟨rfl, rfl, by decide, ⟨"httpd", "UP", "h", "2024-01-15T10:30:05Z"⟩, by decide, by decide⟩

/-! ### C7, C10: batch snapshot writing -/

theorem write_status_file_fst (fs : FsEnv) (store store₂ : List (String × String))
    (item : WriteItem) (dir : String) :
    (write_status_file fs store item dir).1 = (write_status_file fs store₂ item dir).1 := by
  cases item with
  | notRecord => rfl
  | record r =>
    simp only [write_status_file]
    cases hg : generate_json_filename r.service_name r.timestamp with
    | error e => rfl
    | ok filename =>
      cases hw : fs.writeOutcome (dir ++ "/" ++ filename) <;> simp [hw]

theorem writeLoop_records (fs : FsEnv) (dir : String) (records : List ServiceStatus) :
    ∀ store written, ∃ store',
      writeLoop fs dir (records.map .record) store written =
        (.ok (written ++ records.filterMap (fun r => (writeResult fs dir r).toOption)),
         store') := by
  induction records with
  | nil => intro store written; exact ⟨store, by simp [writeLoop]⟩
  | cons r rest ih =>
    intro store written
    rcases hw : write_status_file fs store (.record r) dir with ⟨res, store1⟩
    have hres : writeResult fs dir r = res := by
      have := write_status_file_fst fs [] store (.record r) dir
      rw [hw] at this; exact this
    cases res with
    | ok p =>
      obtain ⟨store', hloop⟩ := ih store1 (written ++ [p])
      refine ⟨store', ?_⟩
      have hf : (writeResult fs dir r).toOption = some p := by rw [hres]; rfl
      simp only [List.map_cons, writeLoop, hw, hloop, List.filterMap_cons, hf,
        List.append_assoc, List.singleton_append]
    | error e =>
      obtain ⟨store', hloop⟩ := ih store1 written
      refine ⟨store', ?_⟩
      have hf : (writeResult fs dir r).toOption = none := by rw [hres]; rfl
      simp only [List.map_cons, writeLoop, hw, hloop, List.filterMap_cons, hf]

/-- C7: on a list of genuine records, `write_multiple_status_files` returns —
without raising — exactly the paths of the records whose individual write
succeeded, in input order; a failing write only drops its own path. -/
theorem writeAll_spec (fs : FsEnv) (dir : String) (records : List ServiceStatus)
    (store : List (String × String)) :
    ∃ store', write_multiple_status_files fs store (records.map .record) dir =
      (.ok (records.filterMap (fun r => (writeResult fs dir r).toOption)), store') := by
  obtain ⟨store', h⟩ := writeLoop_records fs dir records store []
  exact ⟨store', by simpa [write_multiple_status_files] using h⟩

/-- Witness for `writeAll_spec`: three valid records, the second failing with a
permission error, give the two-element path list of the first and third. -/
theorem writeAll_spec_witness :
    ∃ store', write_multiple_status_files fsPerm []
        [.record recA, .record recB, .record recC] "data" =
      (.ok ["data/a-status-2024-01-15T10-30-00Z.json",
            "data/c-status-2024-01-15T10-30-00Z.json"], store') := by
  obtain ⟨store', h⟩ := writeAll_spec fsPerm "data" [recA, recB, recC] []
  exact ⟨store', h⟩

theorem writeLoop_notRecord (fs : FsEnv) (dir : String) :
    ∀ (items : List WriteItem) store written, WriteItem.notRecord ∈ items →
      (writeLoop fs dir items store written).1 =
        .error (.attributeError "object has no attribute service_name") := by
  intro items
  induction items with
  | nil => intro store written h; simp at h
  | cons item rest ih =>
    intro store written h
    cases item with
    | notRecord => simp [writeLoop, write_status_file]
    | record r =>
      have hmem : WriteItem.notRecord ∈ rest := by simpa using h
      rcases hw : write_status_file fs store (.record r) dir with ⟨res, store1⟩
      cases res with
      | ok p =>
        simp only [writeLoop, hw]
        exact ih store1 (written ++ [p]) hmem
      | error e =>
        simp only [writeLoop, hw]
        exact ih store1 written hmem

/-- C10: whenever some element of the batch is not a `ServiceStatus`, the
batch call itself raises: the per-item write rejects the element with
`ValueError`, and the error handler — which reads the element's
`service_name` to build its log message — then raises `AttributeError`
instead of skipping the element. -/
theorem writeAll_notRecord_spec (fs : FsEnv) (dir : String)
    (items : List WriteItem) (store : List (String × String))
    (h : WriteItem.notRecord ∈ items) :
    (write_multiple_status_files fs store items dir).1 =
      .error (.attributeError "object has no attribute service_name")
    ∧ (write_status_file fs store .notRecord dir).1 =
      .error (.valueError "service_status must be a ServiceStatus instance") :=
  ⟨writeLoop_notRecord fs dir items store [] h, rfl⟩

/-- Witness for `writeAll_notRecord_spec`: a batch containing one non-record
element raises even though its other element writes fine. -/
theorem writeAll_notRecord_spec_witness :
    (write_multiple_status_files fsOkAll [] [.record recA, .notRecord] "data").1 =
      .error (.attributeError "object has no attribute service_name")
    ∧ (write_status_file fsOkAll [] .notRecord "data").1 =
      .error (.valueError "service_status must be a ServiceStatus instance") :=
  writeAll_notRecord_spec fsOkAll "data" [.record recA, .notRecord] [] (by decide)

/-! ### C8: snapshot write / read-back round trip -/

theorem hexVal_hexDigitChar : ∀ n, n < 16 → hexVal (hexDigitChar n) = some n := by decide

theorem escapeList_cons (c : Char) (s : List Char) :
    escapeList (c :: s) = escapeChar c ++ escapeList s := by
  simp [escapeList]

theorem strLoop_unicode (a b : Char) (na nb : Nat) (ha : hexVal a = some na)
    (hb : hexVal b = some nb) (l acc : List Char) :
    strLoop ('\\' :: 'u' :: '0' :: '0' :: a :: b :: l) acc =
      strLoop l (Char.ofNat (16 * na + nb) :: acc) := by
  simp [strLoop, ha, hb, show hexVal '0' = some 0 from rfl]

theorem strLoop_escape (s : List Char) : ∀ (acc rest : List Char),
    strLoop (escapeList s ++ '"' :: rest) acc = some (acc.reverse ++ s, rest) := by
  induction s with
  | nil =>
    intro acc rest
    rw [show escapeList [] ++ '"' :: rest = '"' :: rest from rfl,
      show strLoop ('"' :: rest) acc = some (acc.reverse, rest) from by
        rw [strLoop.eq_def]; rfl]
    simp
  | cons c s ih =>
    intro acc rest
    rw [escapeList_cons, List.append_assoc]
    by_cases h1 : c = '"'
    · subst h1
      rw [show escapeChar '"' ++ (escapeList s ++ '"' :: rest) =
          '\\' :: '"' :: (escapeList s ++ '"' :: rest) from rfl,
        show strLoop ('\\' :: '"' :: (escapeList s ++ '"' :: rest)) acc =
          strLoop (escapeList s ++ '"' :: rest) ('"' :: acc) from by
          rw [strLoop.eq_def]; rfl]
      rw [ih]; simp
    · by_cases h2 : c = '\\'
      · subst h2
        rw [show escapeChar '\\' ++ (escapeList s ++ '"' :: rest) =
            '\\' :: '\\' :: (escapeList s ++ '"' :: rest) from rfl,
          show strLoop ('\\' :: '\\' :: (escapeList s ++ '"' :: rest)) acc =
            strLoop (escapeList s ++ '"' :: rest) ('\\' :: acc) from by
            rw [strLoop.eq_def]; rfl]
        rw [ih]; simp
      · by_cases h3 : c = '\x08'
        · subst h3
          rw [show escapeChar '\x08' ++ (escapeList s ++ '"' :: rest) =
              '\\' :: 'b' :: (escapeList s ++ '"' :: rest) from rfl,
            show strLoop ('\\' :: 'b' :: (escapeList s ++ '"' :: rest)) acc =
              strLoop (escapeList s ++ '"' :: rest) ('\x08' :: acc) from by
              rw [strLoop.eq_def]; rfl]
          rw [ih]; simp
        · by_cases h4 : c = '\x0c'
          · subst h4
            rw [show escapeChar '\x0c' ++ (escapeList s ++ '"' :: rest) =
                '\\' :: 'f' :: (escapeList s ++ '"' :: rest) from rfl,
              show strLoop ('\\' :: 'f' :: (escapeList s ++ '"' :: rest)) acc =
                strLoop (escapeList s ++ '"' :: rest) ('\x0c' :: acc) from by
                rw [strLoop.eq_def]; rfl]
            rw [ih]; simp
          · by_cases h5 : c = '\n'
            · subst h5
              rw [show escapeChar '\n' ++ (escapeList s ++ '"' :: rest) =
                  '\\' :: 'n' :: (escapeList s ++ '"' :: rest) from rfl,
                show strLoop ('\\' :: 'n' :: (escapeList s ++ '"' :: rest)) acc =
                  strLoop (escapeList s ++ '"' :: rest) ('\n' :: acc) from by
                  rw [strLoop.eq_def]; rfl]
              rw [ih]; simp
            · by_cases h6 : c = '\x0d'
              · subst h6
                rw [show escapeChar '\x0d' ++ (escapeList s ++ '"' :: rest) =
                    '\\' :: 'r' :: (escapeList s ++ '"' :: rest) from rfl,
                  show strLoop ('\\' :: 'r' :: (escapeList s ++ '"' :: rest)) acc =
                    strLoop (escapeList s ++ '"' :: rest) ('\x0d' :: acc) from by
                    rw [strLoop.eq_def]; rfl]
                rw [ih]; simp
              · by_cases h7 : c = '\t'
                · subst h7
                  rw [show escapeChar '\t' ++ (escapeList s ++ '"' :: rest) =
                      '\\' :: 't' :: (escapeList s ++ '"' :: rest) from rfl,
                    show strLoop ('\\' :: 't' :: (escapeList s ++ '"' :: rest)) acc =
                      strLoop (escapeList s ++ '"' :: rest) ('\t' :: acc) from by
                      rw [strLoop.eq_def]; rfl]
                  rw [ih]; simp
                · by_cases h8 : c.toNat < 32
                  · have he : escapeChar c =
                        ['\\', 'u', '0', '0', hexDigitChar (c.toNat / 16),
                         hexDigitChar (c.toNat % 16)] := by
                      simp [escapeChar, h1, h2, h3, h4, h5, h6, h7, h8]
                    rw [he]
                    rw [show (['\\', 'u', '0', '0', hexDigitChar (c.toNat / 16),
                        hexDigitChar (c.toNat % 16)] ++ (escapeList s ++ '"' :: rest)) =
                        '\\' :: 'u' :: '0' :: '0' :: hexDigitChar (c.toNat / 16) ::
                          hexDigitChar (c.toNat % 16) :: (escapeList s ++ '"' :: rest) from rfl]
                    rw [strLoop_unicode _ _ _ _
                      (hexVal_hexDigitChar _ (by omega)) (hexVal_hexDigitChar _ (by omega))]
                    rw [Nat.div_add_mod, Char.ofNat_toNat, ih]
                    simp
                  · have he : escapeChar c = [c] := by
                      simp [escapeChar, h1, h2, h3, h4, h5, h6, h7, h8]
                    rw [he]
                    rw [show ([c] ++ (escapeList s ++ '"' :: rest)) =
                        c :: (escapeList s ++ '"' :: rest) from rfl]
                    rw [show strLoop (c :: (escapeList s ++ '"' :: rest)) acc =
                        strLoop (escapeList s ++ '"' :: rest) (c :: acc) from by
                      rw [strLoop.eq_def]
                      simp only []
                      rw [if_neg h1, if_neg h2, if_pos (by omega)]]
                    rw [ih]
                    simp

theorem parseStr_quote (s : String) (rest : List Char) :
    parseStr (quoteStr s ++ rest) = some (s, rest) := by
  rw [show quoteStr s ++ rest = '"' :: (escapeList s.toList ++ '"' :: rest) from by
    simp [quoteStr]]
  rw [parseStr.eq_def]
  simp only []
  rw [strLoop_escape]
  simp [show ∀ t : String, String.mk t.toList = t from fun _ => rfl]

theorem skipWs_not (c : Char) (l : List Char) (h : isJsonWs c = false) :
    skipWs (c :: l) = c :: l := by
  simp [skipWs, List.dropWhile_cons, h]

theorem skipWs_ws (c : Char) (l : List Char) (h : isJsonWs c = true) :
    skipWs (c :: l) = skipWs l := by
  simp [skipWs, List.dropWhile_cons, h]

theorem skipWs_quote (s : String) (l : List Char) :
    skipWs (quoteStr s ++ l) = quoteStr s ++ l := by
  rw [show quoteStr s ++ l = '"' :: (escapeList s.toList ++ '"' :: l) from by simp [quoteStr]]
  rw [skipWs_not _ _ (by decide)]

theorem parseMember_layout (k v : String) (tail : List Char) :
    parseMember (memberChars k v ++ tail) = some ((k, v), tail) := by
  rw [show memberChars k v ++ tail = quoteStr k ++ (':' :: ' ' :: (quoteStr v ++ tail)) from by
    simp [memberChars]]
  simp only [parseMember]
  rw [skipWs_quote, parseStr_quote]
  simp only []
  rw [skipWs_not _ _ (by decide)]
  simp only []
  rw [skipWs_ws _ _ (by decide), skipWs_quote, parseStr_quote]
  simp

theorem parseMember_skip (c : Char) (l : List Char) (h : isJsonWs c = true) :
    parseMember (c :: l) = parseMember l := by
  simp only [parseMember, skipWs_ws c l h]

theorem parseMember_indent (k v : String) (tail : List Char) :
    parseMember ('\n' :: ' ' :: ' ' :: (memberChars k v ++ tail)) = some ((k, v), tail) := by
  rw [parseMember_skip _ _ (by decide), parseMember_skip _ _ (by decide),
    parseMember_skip _ _ (by decide), parseMember_layout]

theorem expectComma_cons (l : List Char) : expectComma (',' :: l) = some l := by
  simp only [expectComma]
  rw [skipWs_not _ _ (by decide)]
  simp

theorem loads_dumpsRecord (r : ServiceStatus) :
    loads (dumpsRecord r) =
      some [("service_name", r.service_name), ("service_status", r.service_status),
            ("host_name", r.host_name), ("timestamp", r.timestamp)] := by
  simp only [loads]
  rw [show (dumpsRecord r).toList =
      '{' :: '\n' :: ' ' :: ' ' :: (memberChars "service_name" r.service_name
        ++ ',' :: '\n' :: ' ' :: ' ' :: (memberChars "service_status" r.service_status
        ++ ',' :: '\n' :: ' ' :: ' ' :: (memberChars "host_name" r.host_name
        ++ ',' :: '\n' :: ' ' :: ' ' :: (memberChars "timestamp" r.timestamp
        ++ ['\n', '}'])))) from rfl]
  rw [skipWs_not _ _ (by decide)]
  simp only []
  rw [parseMember_indent]
  simp only []
  rw [expectComma_cons]
  simp only []
  rw [parseMember_indent]
  simp only []
  rw [expectComma_cons]
  simp only []
  rw [parseMember_indent]
  simp only []
  rw [expectComma_cons]
  simp only []
  rw [parseMember_indent]
  simp only []
  rw [show skipWs ['\n', '}'] = ['}'] from rfl]
  simp [show skipWs ([] : List Char) = [] from rfl]

/-- C8: writing a record and reading the resulting file back through a JSON
parse reproduces the record's four fields exactly: a successful write stores
the serialized text at the returned path, and parsing that text yields the
object with keys `service_name`, `service_status`, `host_name`, `timestamp`
bound to the record's field values. -/
theorem writeRead_roundTrip (fs : FsEnv) (store : List (String × String))
    (r : ServiceStatus) (dir p : String) (store' : List (String × String))
    (h : write_status_file fs store (.record r) dir = (.ok p, store')) :
    alookup store' p = some (dumpsRecord r)
    ∧ loads (dumpsRecord r) =
      some [("service_name", r.service_name), ("service_status", r.service_status),
            ("host_name", r.host_name), ("timestamp", r.timestamp)] := by
  refine ⟨?_, loads_dumpsRecord r⟩
  simp only [write_status_file] at h
  cases hg : generate_json_filename r.service_name r.timestamp with
  | error e => rw [hg] at h; exact absurd (congrArg Prod.fst h) (by simp)
  | ok filename =>
    rw [hg] at h
    simp only [] at h
    cases hw : fs.writeOutcome (dir ++ "/" ++ filename) with
    | error m =>
      rw [hw] at h
      exact absurd (congrArg Prod.fst h) (by simp)
    | ok u =>
      obtain ⟨⟩ := u
      rw [hw] at h
      have hp : dir ++ "/" ++ filename = p := Except.ok.inj (congrArg Prod.fst h)
      have hs : dictInsert store (dir ++ "/" ++ filename) (dumpsRecord r) = store' :=
        congrArg Prod.snd h
      rw [← hp, ← hs]
      exact alookup_dictInsert_self store (dir ++ "/" ++ filename) (dumpsRecord r)

/-- Witness for `writeRead_roundTrip`: a concrete record written on an
all-successful filesystem round-trips. -/
theorem writeRead_roundTrip_witness :
    alookup (dictInsert [] "data/a-status-2024-01-15T10-30-00Z.json" (dumpsRecord recA))
        "data/a-status-2024-01-15T10-30-00Z.json" = some (dumpsRecord recA)
    ∧ loads (dumpsRecord recA) =
      some [("service_name", "a"), ("service_status", "UP"),
            ("host_name", "h"), ("timestamp", "2024-01-15T10:30:00Z")] :=
  writeRead_roundTrip fsOkAll [] recA "data" "data/a-status-2024-01-15T10-30-00Z.json"
    (dictInsert [] "data/a-status-2024-01-15T10-30-00Z.json" (dumpsRecord recA)) rfl

/-! ### C9: filename injectivity -/

theorem safeChar_digit (c : Char) (h : c.isDigit = true) : safeChar c = c := by
  unfold safeChar
  split_ifs with hc1 hc2
  · subst hc1; exact absurd h (by decide)
  · subst hc2; exact absurd h (by decide)
  · rfl

theorem safeChar_sep (c : Char) (h : c = 'T' ∨ c = ' ') : safeChar c = c := by
  rcases h with rfl | rfl <;> rfl

theorem safeChar_sign (c : Char) (h : c = '+' ∨ c = '-') : safeChar c = c := by
  rcases h with rfl | rfl <;> rfl

theorem sign_not_digit (c : Char) (h : c = '+' ∨ c = '-') : c.isDigit = false := by
  rcases h with rfl | rfl <;> decide

theorem safeChar_colon : safeChar ':' = '-' := rfl

theorem safeChar_dot : safeChar '.' = '-' := rfl

theorem safeChar_dash : safeChar '-' = '-' := rfl

theorem safeChar_zee : safeChar 'Z' = 'Z' := rfl

theorem restore_safe_tail (frac : Frac) (tz : Tz) (hfrac : frac.ok = true)
    (htz : tz.ok = true) :
    restoreTail ((frac.render ++ tz.render).map safeChar) = frac.render ++ tz.render := by
  cases frac with
  | nofrac =>
    cases tz with
    | notz => rfl
    | zulu => rfl
    | hm sg a1 a2 b1 b2 =>
      simp only [Tz.ok, Bool.and_eq_true, decide_eq_true_eq] at htz
      obtain ⟨⟨⟨⟨hsg, ha1⟩, ha2⟩, hb1⟩, hb2⟩ := htz
      simp only [Frac.render, Tz.render, List.nil_append, List.map_cons, List.map_nil,
        safeChar_sign _ hsg, safeChar_digit _ ha1, safeChar_digit _ ha2,
        safeChar_digit _ hb1, safeChar_digit _ hb2, safeChar_colon]
      rfl
    | hms sg a1 a2 b1 b2 c1 c2 =>
      simp only [Tz.ok, Bool.and_eq_true, decide_eq_true_eq] at htz
      obtain ⟨⟨⟨⟨⟨⟨hsg, ha1⟩, ha2⟩, hb1⟩, hb2⟩, hc1⟩, hc2⟩ := htz
      simp only [Frac.render, Tz.render, List.nil_append, List.map_cons, List.map_nil,
        safeChar_sign _ hsg, safeChar_digit _ ha1, safeChar_digit _ ha2,
        safeChar_digit _ hb1, safeChar_digit _ hb2, safeChar_digit _ hc1,
        safeChar_digit _ hc2, safeChar_colon]
      rfl
    | hmsf sg a1 a2 b1 b2 c1 c2 u1 u2 u3 u4 u5 u6 =>
      simp only [Tz.ok, Bool.and_eq_true, decide_eq_true_eq] at htz
      obtain ⟨⟨⟨⟨⟨⟨⟨⟨⟨⟨⟨⟨hsg, ha1⟩, ha2⟩, hb1⟩, hb2⟩, hc1⟩, hc2⟩, hu1⟩, hu2⟩, hu3⟩,
        hu4⟩, hu5⟩, hu6⟩ := htz
      simp only [Frac.render, Tz.render, List.nil_append, List.map_cons, List.map_nil,
        safeChar_sign _ hsg, safeChar_digit _ ha1, safeChar_digit _ ha2,
        safeChar_digit _ hb1, safeChar_digit _ hb2, safeChar_digit _ hc1,
        safeChar_digit _ hc2, safeChar_digit _ hu1, safeChar_digit _ hu2,
        safeChar_digit _ hu3, safeChar_digit _ hu4, safeChar_digit _ hu5,
        safeChar_digit _ hu6, safeChar_colon, safeChar_dot]
      rw [restoreTail.eq_def]
      simp only []
      rw [if_neg (by decide)]
  | milli fa fb fc =>
    simp only [Frac.ok, Bool.and_eq_true] at hfrac
    obtain ⟨⟨hfa, hfb⟩, hfc⟩ := hfrac
    cases tz with
    | notz =>
      simp only [Frac.render, Tz.render, List.append_nil, List.map_cons, List.map_nil,
        safeChar_digit _ hfa, safeChar_digit _ hfb, safeChar_digit _ hfc, safeChar_dot]
      rfl
    | zulu =>
      simp only [Frac.render, Tz.render, List.cons_append, List.nil_append, List.map_cons,
        List.map_nil, safeChar_digit _ hfa, safeChar_digit _ hfb, safeChar_digit _ hfc,
        safeChar_dot, safeChar_zee]
      rfl
    | hm sg a1 a2 b1 b2 =>
      simp only [Tz.ok, Bool.and_eq_true, decide_eq_true_eq] at htz
      obtain ⟨⟨⟨⟨hsg, ha1⟩, ha2⟩, hb1⟩, hb2⟩ := htz
      simp only [Frac.render, Tz.render, List.cons_append, List.nil_append, List.map_cons,
        List.map_nil, safeChar_digit _ hfa, safeChar_digit _ hfb, safeChar_digit _ hfc,
        safeChar_sign _ hsg, safeChar_digit _ ha1, safeChar_digit _ ha2,
        safeChar_digit _ hb1, safeChar_digit _ hb2, safeChar_colon, safeChar_dot]
      rfl
    | hms sg a1 a2 b1 b2 c1 c2 =>
      simp only [Tz.ok, Bool.and_eq_true, decide_eq_true_eq] at htz
      obtain ⟨⟨⟨⟨⟨⟨hsg, ha1⟩, ha2⟩, hb1⟩, hb2⟩, hc1⟩, hc2⟩ := htz
      simp only [Frac.render, Tz.render, List.cons_append, List.nil_append, List.map_cons,
        List.map_nil, safeChar_digit _ hfa, safeChar_digit _ hfb, safeChar_digit _ hfc,
        safeChar_sign _ hsg, safeChar_digit _ ha1, safeChar_digit _ ha2,
        safeChar_digit _ hb1, safeChar_digit _ hb2, safeChar_digit _ hc1,
        safeChar_digit _ hc2, safeChar_colon, safeChar_dot]
      rw [restoreTail.eq_def]
      simp only []
      rw [if_neg (by simp [sign_not_digit _ hsg])]
    | hmsf sg a1 a2 b1 b2 c1 c2 u1 u2 u3 u4 u5 u6 =>
      simp only [Tz.ok, Bool.and_eq_true, decide_eq_true_eq] at htz
      obtain ⟨⟨⟨⟨⟨⟨⟨⟨⟨⟨⟨⟨hsg, ha1⟩, ha2⟩, hb1⟩, hb2⟩, hc1⟩, hc2⟩, hu1⟩, hu2⟩, hu3⟩,
        hu4⟩, hu5⟩, hu6⟩ := htz
      simp only [Frac.render, Tz.render, List.cons_append, List.nil_append, List.map_cons,
        List.map_nil, safeChar_digit _ hfa, safeChar_digit _ hfb, safeChar_digit _ hfc,
        safeChar_sign _ hsg, safeChar_digit _ ha1, safeChar_digit _ ha2,
        safeChar_digit _ hb1, safeChar_digit _ hb2, safeChar_digit _ hc1,
        safeChar_digit _ hc2, safeChar_digit _ hu1, safeChar_digit _ hu2,
        safeChar_digit _ hu3, safeChar_digit _ hu4, safeChar_digit _ hu5,
        safeChar_digit _ hu6, safeChar_colon, safeChar_dot]
      rfl
  | micro fa fb fc fd fe ff =>
    simp only [Frac.ok, Bool.and_eq_true] at hfrac
    obtain ⟨⟨⟨⟨⟨hfa, hfb⟩, hfc⟩, hfd⟩, hfe⟩, hff⟩ := hfrac
    cases tz with
    | notz =>
      simp only [Frac.render, Tz.render, List.append_nil, List.map_cons, List.map_nil,
        safeChar_digit _ hfa, safeChar_digit _ hfb, safeChar_digit _ hfc,
        safeChar_digit _ hfd, safeChar_digit _ hfe, safeChar_digit _ hff, safeChar_dot]
      rfl
    | zulu =>
      simp only [Frac.render, Tz.render, List.cons_append, List.nil_append, List.map_cons,
        List.map_nil, safeChar_digit _ hfa, safeChar_digit _ hfb, safeChar_digit _ hfc,
        safeChar_digit _ hfd, safeChar_digit _ hfe, safeChar_digit _ hff, safeChar_dot,
        safeChar_zee]
      rfl
    | hm sg a1 a2 b1 b2 =>
      simp only [Tz.ok, Bool.and_eq_true, decide_eq_true_eq] at htz
      obtain ⟨⟨⟨⟨hsg, ha1⟩, ha2⟩, hb1⟩, hb2⟩ := htz
      simp only [Frac.render, Tz.render, List.cons_append, List.nil_append, List.map_cons,
        List.map_nil, safeChar_digit _ hfa, safeChar_digit _ hfb, safeChar_digit _ hfc,
        safeChar_digit _ hfd, safeChar_digit _ hfe, safeChar_digit _ hff,
        safeChar_sign _ hsg, safeChar_digit _ ha1, safeChar_digit _ ha2,
        safeChar_digit _ hb1, safeChar_digit _ hb2, safeChar_colon, safeChar_dot]
      rw [restoreTail.eq_def]
      simp only []
      rw [if_pos hfd]
    | hms sg a1 a2 b1 b2 c1 c2 =>
      simp only [Tz.ok, Bool.and_eq_true, decide_eq_true_eq] at htz
      obtain ⟨⟨⟨⟨⟨⟨hsg, ha1⟩, ha2⟩, hb1⟩, hb2⟩, hc1⟩, hc2⟩ := htz
      simp only [Frac.render, Tz.render, List.cons_append, List.nil_append, List.map_cons,
        List.map_nil, safeChar_digit _ hfa, safeChar_digit _ hfb, safeChar_digit _ hfc,
        safeChar_digit _ hfd, safeChar_digit _ hfe, safeChar_digit _ hff,
        safeChar_sign _ hsg, safeChar_digit _ ha1, safeChar_digit _ ha2,
        safeChar_digit _ hb1, safeChar_digit _ hb2, safeChar_digit _ hc1,
        safeChar_digit _ hc2, safeChar_colon, safeChar_dot]
      rw [restoreTail.eq_def]
      simp only []
      rw [if_pos hfc]
    | hmsf sg a1 a2 b1 b2 c1 c2 u1 u2 u3 u4 u5 u6 =>
      simp only [Tz.ok, Bool.and_eq_true, decide_eq_true_eq] at htz
      obtain ⟨⟨⟨⟨⟨⟨⟨⟨⟨⟨⟨⟨hsg, ha1⟩, ha2⟩, hb1⟩, hb2⟩, hc1⟩, hc2⟩, hu1⟩, hu2⟩, hu3⟩,
        hu4⟩, hu5⟩, hu6⟩ := htz
      simp only [Frac.render, Tz.render, List.cons_append, List.nil_append, List.map_cons,
        List.map_nil, safeChar_digit _ hfa, safeChar_digit _ hfb, safeChar_digit _ hfc,
        safeChar_digit _ hfd, safeChar_digit _ hfe, safeChar_digit _ hff,
        safeChar_sign _ hsg, safeChar_digit _ ha1, safeChar_digit _ ha2,
        safeChar_digit _ hb1, safeChar_digit _ hb2, safeChar_digit _ hc1,
        safeChar_digit _ hc2, safeChar_digit _ hu1, safeChar_digit _ hu2,
        safeChar_digit _ hu3, safeChar_digit _ hu4, safeChar_digit _ hu5,
        safeChar_digit _ hu6, safeChar_colon, safeChar_dot]
      rfl

theorem restoreIso_safe (p : IsoShape) (hok : isoOk p = true) :
    restoreIso ((renderIso p).map safeChar) = renderIso p := by
  obtain ⟨y1, y2, y3, y4, mo1, mo2, dy1, dy2, sep, hr1, hr2, mi1, mi2, se1, se2,
    frac, tz⟩ := p
  simp only [isoOk, Bool.and_eq_true, decide_eq_true_eq] at hok
  obtain ⟨⟨⟨⟨⟨⟨⟨⟨⟨⟨⟨⟨⟨⟨⟨⟨hy1, hy2⟩, hy3⟩, hy4⟩, hmo1⟩, hmo2⟩, hdy1⟩, hdy2⟩, hsep⟩,
    hhr1⟩, hhr2⟩, hmi1⟩, hmi2⟩, hse1⟩, hse2⟩, hfrac⟩, htz⟩ := hok
  have htail := restore_safe_tail frac tz hfrac htz
  simp only [renderIso, List.cons_append, List.nil_append, List.map_cons,
    safeChar_digit _ hy1, safeChar_digit _ hy2, safeChar_digit _ hy3,
    safeChar_digit _ hy4, safeChar_digit _ hmo1, safeChar_digit _ hmo2,
    safeChar_digit _ hdy1, safeChar_digit _ hdy2, safeChar_sep _ hsep,
    safeChar_digit _ hhr1, safeChar_digit _ hhr2, safeChar_digit _ hmi1,
    safeChar_digit _ hmi2, safeChar_digit _ hse1, safeChar_digit _ hse2,
    safeChar_dash, safeChar_colon]
  rw [restoreIso.eq_def]
  simp only []
  rw [htail]

/-- C9: filename derivation — `name ++ "-status-" ++ safeTimestamp ++ ".json"`,
where the safe timestamp replaces every `:` and `.` with `-` — is, for a fixed
non-empty name, injective in the timestamp over valid ISO-style date-time
strings with seconds-or-finer precision: a date, a `T` or space separator, a
full `HH:MM:SS` time-of-day, an optional 3- or 6-digit fraction, and an
optional `Z` or numeric-offset suffix. Two distinct such timestamps — in
particular any two differing at second or finer granularity, with or without
an offset or `Z` — never produce the same filename. -/
theorem filename_injective (name t1 t2 : String) (hname : name ≠ "")
    (h1 : isIsoStyleTs t1) (h2 : isIsoStyleTs t2) (hne : t1 ≠ t2) :
    generate_json_filename name t1 ≠ generate_json_filename name t2 := by
  obtain ⟨p1, hok1, hp1⟩ := h1
  obtain ⟨p2, hok2, hp2⟩ := h2
  intro heq
  unfold generate_json_filename at heq
  rw [if_neg hname, if_neg hname] at heq
  have hlist : (safeTimestamp t1).data = (safeTimestamp t2).data := by
    have hd := congrArg String.data (Except.ok.inj heq)
    simp only [String.data_append, List.append_assoc] at hd
    have hd1 := List.append_cancel_left hd
    have hd2 := List.append_cancel_left hd1
    exact List.append_cancel_right hd2
  have hmap : t1.data.map safeChar = t2.data.map safeChar := hlist
  rw [hp1, hp2] at hmap
  have hr := congrArg restoreIso hmap
  rw [restoreIso_safe p1 hok1, restoreIso_safe p2 hok2] at hr
  exact hne (String.ext ((hp1.trans hr).trans hp2.symm))

/-- Witness for `filename_injective`: two offset-bearing timestamps one second
apart give different filenames. -/
theorem filename_injective_witness :
    generate_json_filename "httpd" "2024-01-15T10:30:00+05:00" ≠
      generate_json_filename "httpd" "2024-01-15T10:30:01+05:00" :=
  filename_injective "httpd" "2024-01-15T10:30:00+05:00" "2024-01-15T10:30:01+05:00"
    (by decide)
    ⟨⟨'2', '0', '2', '4', '0', '1', '1', '5', 'T', '1', '0', '3', '0', '0', '0',
      Frac.nofrac, Tz.hm '+' '0' '5' '0' '0'⟩, by decide, by decide⟩
    ⟨⟨'2', '0', '2', '4', '0', '1', '1', '5', 'T', '1', '0', '3', '0', '0', '1',
      Frac.nofrac, Tz.hm '+' '0' '5' '0' '0'⟩, by decide, by decide⟩
    (by decide)

end Monitor
